import Mathlib

/-!
Verification development for the `alicat` BASIS driver
(`src/alicat/basis.py`), its protocol mock (`src/alicat/mock.py`) and the
device simulator used by the tests.

The Python code is shallowly embedded: Python strings become `String`,
whitespace tokenization (`str.split()`) is `pyWords`/`pyTokens`, Python
`float(...)`/`int(...)` conversions become `parseFloatChars`/`parseIntChars`
returning `Option`, and every `raise` site becomes an explicit constructor of
the error type `Err`.  Mutable driver state (`self.keys`) is threaded
explicitly: the parser takes the current key schema and returns the updated
one alongside the parsed record.
-/

/-- Error taxonomy.  Each constructor corresponds to one family of `raise`
sites in the Python source:
* `readFailure`        — `OSError("Could not read values")` on an empty reply
* `indexError`         — an uncaught Python `IndexError` (e.g. `values[-1]` on
                         an empty list, or `spl[0]` on an empty split)
* `unitMismatch`       — `ValueError("Flow controller unit ID mismatch.")`
* `fieldCountMismatch` — the `ValueError` raised by `zip(..., strict=True)`
                         when the key and value counts disagree
* `valueError`         — any other uncaught Python `ValueError` (failed
                         `float(...)`/`int(...)` conversion, `list.remove` /
                         `list.index` of a missing element)
* `setpointRejected`   — `OSError("Could not set setpoint.")`
* `unsupportedGas`     — `ValueError(f"{gas} not supported!")`
* `communicationFailure` — `OSError("Cannot set gas.")` on an empty reply
* `tareFailure`        — `OSError("Unable to tare flow.")`
* `notImplemented`     — the mock's `raise NotImplementedError(msg)`
* `stopIteration`      — Python `StopIteration` from an exhausted `next(...)`
* `keyError`           — a Python dict `KeyError`
* `attributeError`     — a Python `AttributeError` (attribute never assigned)
-/
inductive Err where
  | readFailure
  | indexError
  | unitMismatch
  | fieldCountMismatch
  | valueError
  | setpointRejected
  | unsupportedGas
  | communicationFailure
  | tareFailure
  | notImplemented
  | stopIteration
  | keyError
  | attributeError
  deriving DecidableEq, Repr

/-- Decidable equality for `Except`, used to evaluate the embedded operations
on concrete inputs. -/
instance exceptDecEq {ε α : Type} [DecidableEq ε] [DecidableEq α] :
    DecidableEq (Except ε α)
  | .ok a, .ok b =>
    if h : a = b then .isTrue (by rw [h]) else .isFalse (by simp [h])
  | .ok _, .error _ => .isFalse (by simp)
  | .error _, .ok _ => .isFalse (by simp)
  | .error a, .error b =>
    if h : a = b then .isTrue (by rw [h]) else .isFalse (by simp [h])

/-- A parsed field value: Python `float(v) if _is_float(v) else v`. -/
inductive FieldVal where
  | num (q : ℚ)
  | str (s : String)
  deriving DecidableEq, Repr

/-! ## Whitespace tokenization (Python `str.split()`) -/

/-- Accumulator-based whitespace tokenizer: models Python `str.split()`
(split on runs of whitespace, drop empty tokens). -/
def pyWordsAux : List Char → List Char → List (List Char)
  | [], acc => if acc = [] then [] else [acc.reverse]
  | c :: cs, acc =>
    if c.isWhitespace then
      if acc = [] then pyWordsAux cs [] else acc.reverse :: pyWordsAux cs []
    else pyWordsAux cs (c :: acc)

/-- Python `str.split()` on a character list. -/
def pyWords (l : List Char) : List (List Char) := pyWordsAux l []

/-- Python `line.split()` producing strings. -/
def pyTokens (s : String) : List String := (pyWords s.data).map fun w => ⟨w⟩

/-- Python `str.strip()`: drop leading and trailing whitespace. -/
def pyStrip (l : List Char) : List Char :=
  ((l.dropWhile Char.isWhitespace).reverse.dropWhile Char.isWhitespace).reverse

/-- Join tokens with single spaces (used to build reply lines for the
simulator models; fixed-width padding spaces are insignificant to
whitespace tokenization and are omitted). -/
def joinWords : List (List Char) → List Char
  | [] => []
  | [w] => w
  | w :: ws => w ++ ' ' :: joinWords ws

/-- Join string tokens with single spaces. -/
def joinTokens (ts : List String) : String := ⟨joinWords (ts.map fun t => t.data)⟩

/-! ## Numeric conversions

`float(...)` / `_is_float` live in `alicat/util.py`, which is not under
`src/`.  `parseFloatChars` is modelled from the spec (§4.3 step 6: "coerce
each token to a numeric type if it parses as a number"): an optional sign,
then digits with at most one decimal point.  `parseIntChars` models Python
`int(...)`: an optional sign followed by digits. -/

/-- Decimal digit test. -/
def isDigitChar (c : Char) : Bool := '0' ≤ c && c ≤ '9'

/-- Split a leading run of decimal digits off a character list. -/
def takeDigits : List Char → List Nat × List Char
  | [] => ([], [])
  | c :: cs =>
    if isDigitChar c then
      let p := takeDigits cs
      ((c.toNat - 48) :: p.1, p.2)
    else ([], c :: cs)

/-- Value of a big-endian digit list. -/
def natOfDigits (ds : List Nat) : Nat := ds.foldl (fun a d => 10 * a + d) 0

/-- Modelled from the spec: unsigned decimal number with optional fraction
(the body of `float(...)` from the missing `alicat/util.py`). -/
def parseUnsigned (l : List Char) : Option ℚ :=
  match takeDigits l with
  | (ds, []) => if ds = [] then none else some (natOfDigits ds : ℚ)
  | (ds, '.' :: r) =>
    match takeDigits r with
    | (fs, []) =>
      if ds = [] && fs = [] then none
      else some ((natOfDigits ds : ℚ) + (natOfDigits fs : ℚ) / (10 : ℚ) ^ fs.length)
    | _ => none
  | _ => none

/-- Modelled from the spec: Python `float(...)` on a string, as `Option ℚ`. -/
def parseFloatChars : List Char → Option ℚ
  | '+' :: r => parseUnsigned r
  | '-' :: r => (parseUnsigned r).map fun q => -q
  | r => parseUnsigned r

/-- Modelled from the spec: `_is_float` from the missing `alicat/util.py`. -/
def isFloatStr (s : String) : Bool := (parseFloatChars s.data).isSome

/-- A leading run of digits that must consume the whole input. -/
def parseDigitsAll (l : List Char) : Option Nat :=
  match takeDigits l with
  | (ds, []) => if ds = [] then none else some (natOfDigits ds)
  | _ => none

/-- Modelled from the spec: Python `int(...)` on a string, as `Option ℤ`. -/
def parseIntChars : List Char → Option ℤ
  | '+' :: r => (parseDigitsAll r).map fun n => (n : ℤ)
  | '-' :: r => (parseDigitsAll r).map fun n => -(n : ℤ)
  | r => (parseDigitsAll r).map fun n => (n : ℤ)

/-- Token coercion: `float(v) if _is_float(v) else v`
(basis.py lines 95-96 and 222-223). -/
def coerceTok (t : String) : FieldVal :=
  match parseFloatChars t.data with
  | some q => .num q
  | none => .str t

/-! ## Python dict construction -/

/-- Python dict assignment `d[k] = v`: update in place if the key exists,
else append. -/
def pydictInsert : List (String × FieldVal) → String → FieldVal → List (String × FieldVal)
  | [], k, v => [(k, v)]
  | (k', v') :: t, k, v =>
    if k' = k then (k', v) :: t else (k', v') :: pydictInsert t k v

/-- Python dict built from a pair sequence (a dict comprehension). -/
def pydict (ps : List (String × FieldVal)) : List (String × FieldVal) :=
  ps.foldl (fun d p => pydictInsert d p.1 p.2) []

/-- Python dict lookup `d[k]`, as an `Option`. -/
def pylookup : List (String × FieldVal) → String → Option FieldVal
  | [], _ => none
  | (k', v) :: t, k => if k' = k then some v else pylookup t k

/-! ## Over-range flag stripping -/

/-- Uppercase a string (`str.upper()`), character by character. -/
def upperStr (s : String) : String := ⟨s.data.map Char.toUpper⟩

/-- The trailing over-range flags (basis.py lines 89, 213). -/
def flagTokens : List String := ["MOV", "VOV", "POV", "TOV"]

/-- Case-insensitive over-range flag test: `values[-1].upper() in [...]`. -/
def isFlag (t : String) : Bool := decide (upperStr t ∈ flagTokens)

/-- The flag-stripping loop on the reversed value list.  An empty list models
Python `values[-1]` raising `IndexError`. -/
def stripFlagsRev : List String → Except Err (List String)
  | [] => .error .indexError
  | v :: rest => if isFlag v then stripFlagsRev rest else .ok (v :: rest)

/-- `while values[-1].upper() in ['MOV','VOV','POV','TOV']: del values[-1]`
(basis.py lines 89-90 / 213-214). -/
def stripFlags (vs : List String) : Except Err (List String) :=
  (stripFlagsRev vs.reverse).map fun l => l.reverse

/-! ## The BASIS driver (src/alicat/basis.py) -/

/-- `GASES` (basis.py line 12). -/
def GASES : List String := ["Air", "Ar", "CO2", "N2", "O2", "N2O", "H2", "He", "CH4"]

/-- The nominal six-key field schema set in `BASISMeter.__init__`
(basis.py lines 34-35). -/
def basisKeys : List String :=
  ["temperature", "mass_flow", "totalizer", "setpoint", "valve_drive", "gas"]

/-- Meter schema narrowing (basis.py lines 93-94):
`if len(values) == 5 and len(self.keys) == 6: self.keys.remove('setpoint')`.
`list.remove` raises `ValueError` when the element is absent. -/
def meterNarrow (keys vs : List String) : Except Err (List String) :=
  if vs.length = 5 ∧ keys.length = 6 then
    if "setpoint" ∈ keys then .ok (keys.erase "setpoint") else .error .valueError
  else .ok keys

/-- Controller schema narrowing (basis.py lines 217-218):
`if len(values) == 5 and len(self.keys) == 6: del self.keys[-3]`. -/
def controllerNarrow (keys vs : List String) : List String :=
  if vs.length = 5 ∧ keys.length = 6 then keys.eraseIdx (keys.length - 3) else keys

/-- Body of `BASISMeter.get` after the reply line has been split into tokens
(basis.py lines 84-96).  Returns the parsed record together with the driver's
new `self.keys`. -/
def BASISMeter.go (keys : List String) (unit : String) (toks : List String) :
    Except Err (List (String × FieldVal) × List String) :=
  match toks with
  | [] => .error .indexError
  | u :: values => do
    let values ← stripFlags values
    if u ≠ unit then .error .unitMismatch
    else do
      let keys ← meterNarrow keys values
      if keys.length ≠ values.length then .error .fieldCountMismatch
      else .ok (pydict (keys.zip (values.map coerceTok)), keys)

/-- `BASISMeter.get` (basis.py lines 64-96), as a function of the driver's
current key schema, its unit id and the reply line.  An empty reply raises
`OSError("Could not read values")`. -/
def BASISMeter.get (keys : List String) (unit : String) (line : String) :
    Except Err (List (String × FieldVal) × List String) :=
  if line = "" then .error .readFailure
  else BASISMeter.go keys unit (pyTokens line)

/-- Body of `BASISController.get` after splitting (basis.py lines 208-225).
The zip uses `strict=False`, so mismatched lengths silently truncate. -/
def BASISController.go (keys : List String) (unit : String) (toks : List String) :
    Except Err (List (String × FieldVal) × List String) :=
  match toks with
  | [] => .error .indexError
  | u :: values => do
    let values ← stripFlags values
    if u ≠ unit then .error .unitMismatch
    else
      let keys := controllerNarrow keys values
      let cp : String := if values.getLast? = some "HLD" then "HLD" else "mass flow"
      let values := if values.getLast? = some "HLD" then values.dropLast else values
      .ok (pydictInsert (pydict (keys.zip (values.map coerceTok))) "control_point" (.str cp),
           keys)

/-- `BASISController.get` (basis.py lines 188-225). -/
def BASISController.get (keys : List String) (unit : String) (line : String) :
    Except Err (List (String × FieldVal) × List String) :=
  if line = "" then .error .readFailure
  else BASISController.go keys unit (pyTokens line)

/-! ## Driver write operations -/

/-- Decimal rendering of a natural number (with fuel, so that it reduces
definitionally). -/
def natDigitsRev (fuel n : Nat) : List Char :=
  match fuel, n with
  | 0, _ => []
  | _, 0 => []
  | f + 1, n => Char.ofNat (48 + n % 10) :: natDigitsRev f (n / 10)

/-- `str(n)` for a natural number. -/
def natToStr (n : Nat) : String :=
  if n = 0 then "0" else ⟨(natDigitsRev (n + 1) n).reverse⟩

/-- `str(i)` for an integer. -/
def intToStr (i : ℤ) : String :=
  if i < 0 then "-" ++ natToStr i.natAbs else natToStr i.natAbs

/-- `list.index(x)`: position of the first occurrence. -/
def listIndex (x : String) : List String → Nat
  | [] => 0
  | y :: t => if y = x then 0 else listIndex x t + 1

/-- `BASISMeter.set_gas`, encoding stage (basis.py lines 105-111): a string
gas name is validated against `GASES` (raising `ValueError` if absent) before
the command line is constructed; an integer is passed through unvalidated. -/
def BASISMeter.set_gas_command (unit : Char) (gas : String ⊕ ℤ) : Except Err String :=
  match gas with
  | .inl name =>
    if name ∈ GASES then .ok (⟨[unit]⟩ ++ "GS " ++ natToStr (listIndex name GASES))
    else .error .unsupportedGas
  | .inr n => .ok (⟨[unit]⟩ ++ "GS " ++ intToStr n)

/-- `BASISMeter.set_gas` (basis.py lines 98-115) as a whole round trip: the
command is encoded (possibly failing before anything is written), then the
device reply is checked; an empty reply raises `OSError("Cannot set gas.")`. -/
def BASISMeter.set_gas (unit : Char) (gas : String ⊕ ℤ) (reply : String) :
    Except Err String := do
  let cmd ← BASISMeter.set_gas_command unit gas
  if reply = "" then .error .communicationFailure else .ok cmd

/-- The tare command `f'{self.unit}V {duration}'` (basis.py line 124). -/
def BASISMeter.tareCmd (unit : Char) (duration : Nat) : String :=
  ⟨[unit]⟩ ++ "V " ++ natToStr duration

/-- The bare read-state command `f'{self.unit}'` (basis.py line 80). -/
def BASISMeter.readCmd (unit : Char) : String := ⟨[unit]⟩

/-- Reply validation of `BASISMeter.tare` (basis.py lines 125-128): the
literal rejection token `?` raises `OSError("Unable to tare flow.")`. -/
def BASISMeter.tare (reply : String) : Except Err Unit :=
  if reply = "?" then .error .tareFailure else .ok ()

/-- `BASISController.set_flow_rate` (basis.py lines 292-303) as a function of
the target and the echoed reply line:
* empty line → `OSError("Could not set setpoint.")`;
* `float(line.split()[4])` — a missing 5th token raises `IndexError`, caught
  and re-raised as the same `OSError`; a token that does not parse as a float
  raises an *uncaught* `ValueError`;
* an echoed value further than 0.1 from the target raises the `OSError`. -/
def BASISController.set_flow_rate (flowrate : ℚ) (line : String) : Except Err Unit :=
  if line = "" then .error .setpointRejected
  else
    match (pyTokens line).get? 4 with
    | none => .error .setpointRejected
    | some t =>
      match parseFloatChars t.data with
      | none => .error .valueError
      | some v =>
        if |v - flowrate| > 1 / 10 then .error .setpointRejected else .ok ()

/-! ## Tokenizer lemmas -/

/-- A whitespace character is unchanged by `Char.toUpper`. -/
theorem toUpper_of_ws {c : Char} (h : c.isWhitespace = true) : c.toUpper = c := by
  simp [Char.isWhitespace] at h
  rcases h with ((h | h) | h) | h <;> subst h <;> decide

/-- A run of non-whitespace characters forms a single token. -/
theorem pyWordsAux_all_nonWS :
    ∀ (f acc : List Char), (∀ c ∈ f, c.isWhitespace = false) →
      acc.reverse ++ f ≠ [] → pyWordsAux f acc = [acc.reverse ++ f] := by
  intro f
  induction f with
  | nil =>
    intro acc _ hne
    have hacc : acc ≠ [] := by
      intro h; exact hne (by simp [h])
    simp [pyWordsAux, hacc]
  | cons c w ih =>
    intro acc hnw hne
    have hc : c.isWhitespace = false := hnw c (by simp)
    have := ih (c :: acc) (fun d hd => hnw d (by simp [hd])) (by simp)
    simp [pyWordsAux, hc, this]

/-- A leading non-whitespace token followed by a space splits off. -/
theorem pyWordsAux_word_space :
    ∀ (w acc r : List Char), (∀ c ∈ w, c.isWhitespace = false) →
      acc.reverse ++ w ≠ [] →
      pyWordsAux (w ++ ' ' :: r) acc = (acc.reverse ++ w) :: pyWordsAux r [] := by
  intro w
  induction w with
  | nil =>
    intro acc r _ hne
    have hacc : acc ≠ [] := by
      intro h; exact hne (by simp [h])
    have hsp : (' ' : Char).isWhitespace = true := by decide
    simp [pyWordsAux, hsp, hacc]
  | cons c w ih =>
    intro acc r hnw hne
    have hc : c.isWhitespace = false := hnw c (by simp)
    have := ih (c :: acc) r (fun d hd => hnw d (by simp [hd])) (by simp)
    simp [pyWordsAux, hc, this]

/-- `pyWords` of a single non-whitespace token. -/
theorem pyWords_single (w : List Char) (hw : w ≠ [])
    (hnw : ∀ c ∈ w, c.isWhitespace = false) : pyWords w = [w] := by
  simpa [pyWords] using pyWordsAux_all_nonWS w [] hnw (by simpa)

/-- `pyWords` of a token, a space, and a remainder. -/
theorem pyWords_word_space (w r : List Char) (hw : w ≠ [])
    (hnw : ∀ c ∈ w, c.isWhitespace = false) :
    pyWords (w ++ ' ' :: r) = w :: pyWords r := by
  simpa [pyWords] using pyWordsAux_word_space w [] r hnw (by simpa)

/-- Tokenizing a space-joined token list recovers the tokens, provided each
token is nonempty and whitespace-free. -/
theorem pyWords_joinWords :
    ∀ ws : List (List Char),
      (∀ w ∈ ws, w ≠ [] ∧ ∀ c ∈ w, c.isWhitespace = false) →
      pyWords (joinWords ws) = ws := by
  intro ws
  induction ws with
  | nil => intro; rfl
  | cons w tail ih =>
    intro h
    cases tail with
    | nil =>
      have := h w (by simp)
      simpa [joinWords] using pyWords_single w this.1 this.2
    | cons w2 t2 =>
      have hw := h w (by simp)
      have : pyWords (w ++ ' ' :: joinWords (w2 :: t2)) =
          w :: pyWords (joinWords (w2 :: t2)) :=
        pyWords_word_space w _ hw.1 hw.2
      rw [show joinWords (w :: w2 :: t2) = w ++ ' ' :: joinWords (w2 :: t2) from rfl,
        this, ih (fun x hx => h x (by simp [hx]))]

/-- Appending `" " ++ tok` to any character list appends one token. -/
theorem pyWordsAux_append_tok :
    ∀ (l acc f : List Char), f ≠ [] → (∀ c ∈ f, c.isWhitespace = false) →
      pyWordsAux (l ++ ' ' :: f) acc = pyWordsAux l acc ++ [f] := by
  intro l
  induction l with
  | nil =>
    intro acc f hf hnw
    have hsp : (' ' : Char).isWhitespace = true := by decide
    have h1 : pyWordsAux f [] = [f] := by
      simpa using pyWordsAux_all_nonWS f [] hnw (by simpa)
    by_cases hacc : acc = [] <;> simp [pyWordsAux, hsp, hacc, h1]
  | cons c l' ih =>
    intro acc f hf hnw
    by_cases hc : c.isWhitespace
    · by_cases hacc : acc = [] <;> simp [pyWordsAux, hc, hacc, ih _ f hf hnw]
    · simp [pyWordsAux, hc, ih (c :: acc) f hf hnw]

/-- String-level version: appending `" " ++ tok` appends one token. -/
theorem pyTokens_append_tok (line f : String) (hf : f.data ≠ [])
    (hnw : ∀ c ∈ f.data, c.isWhitespace = false) :
    pyTokens (line ++ " " ++ f) = pyTokens line ++ [f] := by
  have key : pyWords ((line ++ " " ++ f).data) = pyWords line.data ++ [f.data] := by
    have hd : (line ++ " " ++ f).data = line.data ++ ' ' :: f.data := by
      simp [String.data_append]
    rw [hd]
    exact pyWordsAux_append_tok line.data [] f.data hf hnw
  unfold pyTokens
  rw [key]
  simp

/-- An over-range flag token is nonempty and whitespace-free. -/
theorem isFlag_shape (f : String) (h : isFlag f = true) :
    f.data ≠ [] ∧ ∀ c ∈ f.data, c.isWhitespace = false := by
  have hmem : upperStr f ∈ flagTokens := of_decide_eq_true h
  simp only [flagTokens, List.mem_cons, List.mem_singleton, List.not_mem_nil,
    or_false] at hmem
  have key : ∀ target : String, upperStr f = target →
      f.data.map Char.toUpper = target.data →
      (∀ c ∈ target.data, c.isWhitespace = false) →
      f.data ≠ [] ∧ ∀ c ∈ f.data, c.isWhitespace = false := by
    intro target _ hdata htgt
    constructor
    · intro hnil
      rw [hnil] at hdata
      have : target.data = [] := hdata.symm
      have h2 := congrArg List.length hdata
      simp at h2
      cases target
      simp_all
    · intro c hc
      by_contra hwc
      have hws : c.isWhitespace = true := by
        cases hcv : c.isWhitespace
        · exact absurd hcv hwc
        · rfl
      have hmemu : c.toUpper ∈ f.data.map Char.toUpper := List.mem_map_of_mem _ hc
      rw [hdata, toUpper_of_ws hws] at hmemu
      have := htgt c hmemu
      rw [this] at hws
      exact Bool.false_ne_true hws
  rcases hmem with hm | hm | hm | hm
  · exact key "MOV" hm (congrArg String.data hm) (by decide)
  · exact key "VOV" hm (congrArg String.data hm) (by decide)
  · exact key "POV" hm (congrArg String.data hm) (by decide)
  · exact key "TOV" hm (congrArg String.data hm) (by decide)

/-! ## Flag-stripping lemmas -/

/-- The stripping loop never returns an empty list. -/
theorem stripFlagsRev_ok_nonempty :
    ∀ l w, stripFlagsRev l = .ok w → w ≠ [] := by
  intro l
  induction l with
  | nil => intro w h; simp [stripFlagsRev] at h
  | cons v rest ih =>
    intro w h
    by_cases hv : isFlag v
    · exact ih w (by simpa [stripFlagsRev, hv] using h)
    · simp [stripFlagsRev, hv] at h
      simp [← h]

/-- Stripping ignores a trailing over-range flag (C5's core fact). -/
theorem stripFlags_append_flag (vs : List String) (f : String)
    (hf : isFlag f = true) : stripFlags (vs ++ [f]) = stripFlags vs := by
  unfold stripFlags
  rw [List.reverse_append]
  simp [stripFlagsRev, hf]

/-- A value list consisting solely of flags strips to the `IndexError`. -/
theorem stripFlags_all_flags (vs : List String)
    (h : ∀ v ∈ vs, isFlag v = true) : stripFlags vs = .error .indexError := by
  unfold stripFlags
  have : ∀ l : List String, (∀ v ∈ l, isFlag v = true) →
      stripFlagsRev l = .error .indexError := by
    intro l
    induction l with
    | nil => intro; rfl
    | cons v rest ih =>
      intro hl
      simp [stripFlagsRev, hl v (by simp), ih (fun x hx => hl x (by simp [hx]))]
  rw [this vs.reverse (fun v hv => h v (List.mem_reverse.mp hv))]
  rfl

/-- If the last value token is not a flag, stripping is the identity. -/
theorem stripFlags_last_not_flag (vs : List String) (g : String)
    (h1 : vs.getLast? = some g) (h2 : isFlag g = false) :
    stripFlags vs = .ok vs := by
  unfold stripFlags
  have hrev : vs.reverse.head? = some g := by
    rw [List.head?_reverse]; exact h1
  cases hv : vs.reverse with
  | nil => rw [hv] at hrev; simp at hrev
  | cons a t =>
    rw [hv] at hrev
    have ha : a = g := by simpa using hrev
    have hflag : isFlag a = false := by rw [ha]; exact h2
    have hback : (a :: t).reverse = vs := by rw [← hv, List.reverse_reverse]
    simp only [stripFlagsRev, hflag, Bool.false_eq_true, if_false, Except.map]
    rw [hback]

/-! ## `pyStrip` lemmas -/

/-- The head surviving `dropWhile` fails the predicate. -/
theorem dropWhile_head_not {p : Char → Bool} :
    ∀ (l : List Char) c rest, l.dropWhile p = c :: rest → p c = false := by
  intro l
  induction l with
  | nil => intro c rest h; simp [List.dropWhile] at h
  | cons a t ih =>
    intro c rest h
    rw [List.dropWhile_cons] at h
    by_cases hp : p a
    · exact ih c rest (by simpa [hp] using h)
    · simp [hp] at h
      rw [← h.1]
      simpa using hp

/-- `dropWhile` produces a suffix. -/
theorem dropWhile_is_suffix {p : Char → Bool} :
    ∀ l : List Char, ∃ t, t ++ l.dropWhile p = l := by
  intro l
  induction l with
  | nil => exact ⟨[], rfl⟩
  | cons a t ih =>
    by_cases hp : p a
    · obtain ⟨u, hu⟩ := ih
      exact ⟨a :: u, by simp [List.dropWhile_cons, hp, hu]⟩
    · exact ⟨[], by simp [List.dropWhile_cons, hp]⟩

/-- The first character of a stripped line is not whitespace. -/
theorem pyStrip_head (l : List Char) (c : Char) (rest : List Char)
    (h : pyStrip l = c :: rest) : c.isWhitespace = false := by
  unfold pyStrip at h
  obtain ⟨t, ht⟩ :=
    dropWhile_is_suffix (p := Char.isWhitespace)
      ((l.dropWhile Char.isWhitespace).reverse)
  have hm : (((l.dropWhile Char.isWhitespace).reverse.dropWhile
      Char.isWhitespace).reverse) ++ t.reverse = l.dropWhile Char.isWhitespace := by
    rw [← List.reverse_append, ht, List.reverse_reverse]
  rw [h] at hm
  exact dropWhile_head_not l c (rest ++ t.reverse) (by rw [← hm]; simp)

/-- Stripping is the identity when both ends are non-whitespace. -/
theorem pyStrip_eq_self (l : List Char)
    (h1 : ∀ c, l.head? = some c → c.isWhitespace = false)
    (h2 : ∀ c, l.getLast? = some c → c.isWhitespace = false) :
    pyStrip l = l := by
  cases l with
  | nil => rfl
  | cons a t =>
    have ha : a.isWhitespace = false := h1 a rfl
    have hstep1 : List.dropWhile Char.isWhitespace (a :: t) = a :: t := by
      simp [List.dropWhile_cons, ha]
    unfold pyStrip
    rw [hstep1]
    cases hv : (a :: t).reverse with
    | nil => simp at hv
    | cons d t' =>
      have hd : d.isWhitespace = false := by
        apply h2
        rw [← List.head?_reverse, hv]
        rfl
      have hstep2 : List.dropWhile Char.isWhitespace (d :: t') = d :: t' := by
        simp [List.dropWhile_cons, hd]
      rw [hstep2, ← hv, List.reverse_reverse]

/-! ## Parser-level lemmas -/

/-- The only error the stripping loop produces is the `IndexError`. -/
theorem stripFlags_error (vs : List String) (e : Err)
    (h : stripFlags vs = .error e) : e = .indexError := by
  have aux : ∀ l e, stripFlagsRev l = Except.error e → e = Err.indexError := by
    intro l
    induction l with
    | nil => intro e h; simpa [stripFlagsRev] using h.symm
    | cons v rest ih =>
      intro e h
      by_cases hv : isFlag v
      · exact ih e (by simpa [stripFlagsRev, hv] using h)
      · simp [stripFlagsRev, hv] at h
  unfold stripFlags at h
  cases hs : stripFlagsRev vs.reverse with
  | ok w => rw [hs] at h; simp [Except.map] at h
  | error e' =>
    rw [hs] at h
    simp only [Except.map] at h
    cases h
    exact aux _ _ hs

/-- Binding an error short-circuits (`do` on `Except`). -/
theorem exceptBind_error {ε α β : Type} (e : ε) (k : α → Except ε β) :
    ((Except.error e : Except ε α) >>= k) = Except.error e := rfl

/-- Binding a success continues (`do` on `Except`). -/
theorem exceptBind_ok {ε α β : Type} (a : α) (k : α → Except ε β) :
    ((Except.ok a : Except ε α) >>= k) = k a := rfl

/-- A trailing flag token does not change the meter parse of a token list. -/
theorem meterGo_append_flag (keys : List String) (unit : String)
    (toks : List String) (f : String) (hf : isFlag f = true) :
    BASISMeter.go keys unit (toks ++ [f]) = BASISMeter.go keys unit toks := by
  cases toks with
  | nil => rfl
  | cons u vs =>
    simp only [List.cons_append, BASISMeter.go,
      stripFlags_append_flag vs f hf]

/-- A trailing flag token does not change the controller parse either. -/
theorem controllerGo_append_flag (keys : List String) (unit : String)
    (toks : List String) (f : String) (hf : isFlag f = true) :
    BASISController.go keys unit (toks ++ [f]) = BASISController.go keys unit toks := by
  cases toks with
  | nil => rfl
  | cons u vs =>
    simp only [List.cons_append, BASISController.go,
      stripFlags_append_flag vs f hf]

/-- Inversion of a successful meter parse. -/
theorem meterGo_ok_inv (keys : List String) (unit : String) (toks : List String)
    (rec : List (String × FieldVal)) (keys' : List String)
    (h : BASISMeter.go keys unit toks = .ok (rec, keys')) :
    ∃ u vs vs', toks = u :: vs ∧ stripFlags vs = .ok vs' ∧ u = unit ∧
      meterNarrow keys vs' = .ok keys' ∧ keys'.length = vs'.length ∧
      rec = pydict (keys'.zip (vs'.map coerceTok)) := by
  cases toks with
  | nil => simp [BASISMeter.go] at h
  | cons u vs =>
    refine ⟨u, vs, ?_⟩
    simp only [BASISMeter.go] at h
    cases hs : stripFlags vs with
    | error e => rw [hs, exceptBind_error] at h; exact Except.noConfusion h
    | ok vs' =>
      rw [hs, exceptBind_ok] at h
      by_cases hu : u ≠ unit
      · rw [if_pos hu] at h; exact Except.noConfusion h
      · rw [if_neg hu] at h
        cases hn : meterNarrow keys vs' with
        | error e => rw [hn, exceptBind_error] at h; exact Except.noConfusion h
        | ok k2 =>
          rw [hn, exceptBind_ok] at h
          by_cases hlen : k2.length ≠ vs'.length
          · rw [if_pos hlen] at h; exact Except.noConfusion h
          · rw [if_neg hlen] at h
            simp only [Except.ok.injEq, Prod.mk.injEq] at h
            obtain ⟨hrec, hkeys⟩ := h
            refine ⟨vs', rfl, rfl, not_ne_iff.mp hu, ?_, ?_, ?_⟩
            · rw [← hkeys]; exact hn
            · rw [← hkeys]; exact not_ne_iff.mp hlen
            · rw [← hrec, hkeys]

/-! ## Claim C5 -/

/-- C5: appending a trailing over-range flag token (`MOV`, `VOV`, `POV` or
`TOV`, any letter case) to a nonempty reply line does not change the parse
result of `BASISMeter.get` or `BASISController.get`; the flag is never
surfaced as an error. -/
theorem claimC5_thm (keys : List String) (unit line f : String)
    (hf : isFlag f = true) (hline : line ≠ "") :
    BASISMeter.get keys unit (line ++ " " ++ f) = BASISMeter.get keys unit line ∧
    BASISController.get keys unit (line ++ " " ++ f) =
      BASISController.get keys unit line := by
  obtain ⟨hfne, hfnw⟩ := isFlag_shape f hf
  have htok := pyTokens_append_tok line f hfne hfnw
  have happ : line ++ " " ++ f ≠ "" := by
    intro hcontra
    have hdata := congrArg String.data hcontra
    simp [String.data_append] at hdata
  constructor
  · unfold BASISMeter.get
    rw [if_neg happ, if_neg hline, htok]
    exact meterGo_append_flag keys unit (pyTokens line) f hf
  · unfold BASISController.get
    rw [if_neg happ, if_neg hline, htok]
    exact controllerGo_append_flag keys unit (pyTokens line) f hf

/-- Witness for C5 at a concrete reply line and flag. -/
theorem claimC5_witness :
    isFlag "mov" = true ∧ ("A 1 2 3 4 Air" : String) ≠ "" ∧
    BASISMeter.get basisKeys "A" ("A 1 2 3 4 Air" ++ " " ++ "mov") =
      BASISMeter.get basisKeys "A" "A 1 2 3 4 Air" :=
  ⟨by decide, by decide,
   (claimC5_thm basisKeys "A" "A 1 2 3 4 Air" "mov" (by decide) (by decide)).1⟩

/-! ## Claim C9 -/

/-- C9: a nonempty reply line whose tokenization is a unit token followed
only by over-range flag tokens (possibly none) makes both `get` parsers fail
with the uncaught `IndexError` from the flag-stripping loop, not with any
protocol-level error of the documented taxonomy. -/
theorem claimC9_thm (keys : List String) (unit line : String) (u : String)
    (vs : List String) (hline : line ≠ "") (htok : pyTokens line = u :: vs)
    (hflags : ∀ v ∈ vs, isFlag v = true) :
    BASISMeter.get keys unit line = .error .indexError ∧
    BASISController.get keys unit line = .error .indexError := by
  have hs := stripFlags_all_flags vs hflags
  constructor
  · unfold BASISMeter.get
    rw [if_neg hline, htok]
    simp only [BASISMeter.go]
    rw [hs, exceptBind_error]
  · unfold BASISController.get
    rw [if_neg hline, htok]
    simp only [BASISController.go]
    rw [hs, exceptBind_error]

/-- Witness for C9 at a concrete all-flag reply line. -/
theorem claimC9_witness :
    ("A MOV tov" : String) ≠ "" ∧ pyTokens "A MOV tov" = ["A", "MOV", "tov"] ∧
    (∀ v ∈ (["MOV", "tov"] : List String), isFlag v = true) ∧
    BASISMeter.get basisKeys "A" "A MOV tov" = .error .indexError :=
  ⟨by decide, by decide, by decide,
   (claimC9_thm basisKeys "A" "A MOV tov" "A" ["MOV", "tov"]
     (by decide) (by decide) (by decide)).1⟩

/-! ## Claim C1 -/

/-- C1 counterexample: on a 5-value-token reply against the nominal 6-key
schema, both parsers keep `totalizer` and drop `setpoint` — the resulting
schema is not the nominal schema minus its totalizer-position key
(index 2). -/
theorem claimC1_counterexample :
    BASISMeter.get basisKeys "A" "A 1 2 3 4 Air" =
      .ok ([("temperature", .num 1), ("mass_flow", .num 2), ("totalizer", .num 3),
            ("valve_drive", .num 4), ("gas", .str "Air")],
           ["temperature", "mass_flow", "totalizer", "valve_drive", "gas"]) ∧
    BASISController.get basisKeys "A" "A 1 2 3 4 Air" =
      .ok ([("temperature", .num 1), ("mass_flow", .num 2), ("totalizer", .num 3),
            ("valve_drive", .num 4), ("gas", .str "Air"),
            ("control_point", .str "mass flow")],
           ["temperature", "mass_flow", "totalizer", "valve_drive", "gas"]) ∧
    ("totalizer" ∈ (["temperature", "mass_flow", "totalizer", "valve_drive", "gas"] : List String)) ∧
    ("setpoint" ∉ (["temperature", "mass_flow", "totalizer", "valve_drive", "gas"] : List String)) ∧
    (["temperature", "mass_flow", "totalizer", "valve_drive", "gas"] : List String) ≠
      basisKeys.eraseIdx 2 := by decide

/-- C1 amended: when a 5-token reply meets the nominal 6-key schema, both the
Meter and the Controller drop exactly the setpoint-position key (index 3,
`"setpoint"`), never a different one; the totalizer key (index 2) is kept. -/
theorem claimC1_thm (values : List String) (h : values.length = 5) :
    meterNarrow basisKeys values = .ok (basisKeys.eraseIdx 3) ∧
    controllerNarrow basisKeys values = basisKeys.eraseIdx 3 ∧
    basisKeys.eraseIdx 3 =
      ["temperature", "mass_flow", "totalizer", "valve_drive", "gas"] ∧
    basisKeys.get? 3 = some "setpoint" ∧ basisKeys.get? 2 = some "totalizer" := by
  refine ⟨?_, ?_, by decide, by decide, by decide⟩
  · unfold meterNarrow
    rw [if_pos ⟨h, by decide⟩, if_pos (by decide)]
    decide
  · unfold controllerNarrow
    rw [if_pos ⟨h, by decide⟩]
    decide

/-- Witness for the amended C1 at a concrete 5-token value list. -/
theorem claimC1_witness :
    (["1", "2", "3", "4", "5"] : List String).length = 5 ∧
    meterNarrow basisKeys ["1", "2", "3", "4", "5"] = .ok (basisKeys.eraseIdx 3) :=
  ⟨by decide, (claimC1_thm ["1", "2", "3", "4", "5"] (by decide)).1⟩

/-! ## Claim C3 -/

/-- C3 counterexample: a 5-token reply permanently narrows the stored schema;
at the start of the next `get` the schema is not the nominal 6-key value, and
a subsequent 6-value-token reply fails with `FieldCountMismatch` instead of
being decoded against the full nominal schema. -/
theorem claimC3_counterexample :
    BASISMeter.get basisKeys "A" "A 5 6 7 8 Air" =
      .ok ([("temperature", .num 5), ("mass_flow", .num 6), ("totalizer", .num 7),
            ("valve_drive", .num 8), ("gas", .str "Air")],
           ["temperature", "mass_flow", "totalizer", "valve_drive", "gas"]) ∧
    (["temperature", "mass_flow", "totalizer", "valve_drive", "gas"] : List String) ≠
      basisKeys ∧
    BASISMeter.get ["temperature", "mass_flow", "totalizer", "valve_drive", "gas"]
      "A" "A 1 2 3 4 5 Air" = .error .fieldCountMismatch := by decide

/-- C3 amended: the count-driven narrowing is cached permanently.  Whenever a
`BASISMeter.get` call returns a changed schema, that schema is the old one
minus `"setpoint"` (length 5), and every later reply carrying 6 value tokens
parses against the narrowed schema and fails with `FieldCountMismatch`. -/
theorem claimC3_thm (keys : List String) (unit line : String)
    (rec : List (String × FieldVal)) (keys' : List String)
    (h : BASISMeter.get keys unit line = .ok (rec, keys'))
    (hch : keys' ≠ keys) :
    keys' = keys.erase "setpoint" ∧ keys.length = 6 ∧ keys'.length = 5 ∧
    (∀ line2 u2 vs2 vs2', line2 ≠ "" → pyTokens line2 = u2 :: vs2 →
      stripFlags vs2 = .ok vs2' → u2 = unit → vs2'.length = 6 →
      BASISMeter.get keys' unit line2 = .error .fieldCountMismatch) := by
  unfold BASISMeter.get at h
  by_cases hl : line = ""
  · rw [if_pos hl] at h; exact absurd h (by simp)
  · rw [if_neg hl] at h
    obtain ⟨u, vs, vs', _, _, _, hn, _, _⟩ := meterGo_ok_inv _ _ _ _ _ h
    unfold meterNarrow at hn
    by_cases hcond : vs'.length = 5 ∧ keys.length = 6
    · rw [if_pos hcond] at hn
      by_cases hsp : "setpoint" ∈ keys
      · rw [if_pos hsp] at hn
        injection hn with hk
        have hklen : keys'.length = 5 := by
          rw [← hk, List.length_erase_of_mem hsp, hcond.2]
        refine ⟨hk.symm, hcond.2, hklen, ?_⟩
        intro line2 u2 vs2 vs2' hl2 ht2 hs2 hu2 hlen2
        unfold BASISMeter.get
        rw [if_neg hl2, ht2]
        simp only [BASISMeter.go]
        rw [hs2, exceptBind_ok, if_neg (show ¬u2 ≠ unit by simp [hu2])]
        unfold meterNarrow
        rw [if_neg (show ¬(vs2'.length = 5 ∧ keys'.length = 6) from by
          rintro ⟨hc1, _⟩
          rw [hlen2] at hc1
          exact absurd hc1 (by norm_num))]
        rw [exceptBind_ok, if_pos (show keys'.length ≠ vs2'.length from by
          rw [hklen, hlen2]; norm_num)]
      · rw [if_neg hsp] at hn
        exact Except.noConfusion hn
    · rw [if_neg hcond] at hn
      injection hn with hk
      exact absurd hk hch.symm

/-- Witness for the amended C3 at a concrete two-reply sequence. -/
theorem claimC3_witness :
    BASISMeter.get basisKeys "A" "A 5 6 7 8 Air" =
      .ok ([("temperature", .num 5), ("mass_flow", .num 6), ("totalizer", .num 7),
            ("valve_drive", .num 8), ("gas", .str "Air")],
           ["temperature", "mass_flow", "totalizer", "valve_drive", "gas"]) ∧
    (["temperature", "mass_flow", "totalizer", "valve_drive", "gas"] : List String) ≠
      basisKeys ∧
    ((["temperature", "mass_flow", "totalizer", "valve_drive", "gas"] : List String) =
        basisKeys.erase "setpoint" ∧ basisKeys.length = 6 ∧
      (["temperature", "mass_flow", "totalizer", "valve_drive", "gas"] : List String).length = 5 ∧
      (∀ line2 u2 vs2 vs2', line2 ≠ "" → pyTokens line2 = u2 :: vs2 →
        stripFlags vs2 = .ok vs2' → u2 = "A" → vs2'.length = 6 →
        BASISMeter.get ["temperature", "mass_flow", "totalizer", "valve_drive", "gas"]
          "A" line2 = .error .fieldCountMismatch)) :=
  ⟨by decide, by decide,
   claimC3_thm basisKeys "A" "A 5 6 7 8 Air"
     [("temperature", .num 5), ("mass_flow", .num 6), ("totalizer", .num 7),
      ("valve_drive", .num 8), ("gas", .str "Air")]
     ["temperature", "mass_flow", "totalizer", "valve_drive", "gas"]
     (by decide) (by decide)⟩

/-! ## Claim C4 -/

/-- C4 counterexample: a reply whose 5th token is present but not numeric
makes `set_flow_rate` fail with the uncaught conversion `ValueError`, not with
`SetpointRejected`, and not succeed — against the claimed exact
characterization. -/
theorem claimC4_counterexample :
    BASISController.set_flow_rate 5 "A 1 2 3 abc" = .error .valueError ∧
    (pyTokens "A 1 2 3 abc")[4]? = some "abc" ∧
    Err.valueError ≠ Err.setpointRejected := by decide

/-- C4 amended: `set_flow_rate(target)` fails with `SetpointRejected` exactly
when the reply line is empty, has no 5th whitespace token, or its 5th token
parses as a float differing from the target by more than 0.1; it succeeds
exactly when the 5th token parses within 0.1; a 5th token that does not parse
as a float raises an uncaught conversion `ValueError` instead. -/
theorem claimC4_thm (fr : ℚ) (line : String) :
    (line = "" → BASISController.set_flow_rate fr line = .error .setpointRejected) ∧
    (line ≠ "" → (pyTokens line)[4]? = none →
      BASISController.set_flow_rate fr line = .error .setpointRejected) ∧
    (∀ t v, line ≠ "" → (pyTokens line)[4]? = some t →
      parseFloatChars t.data = some v →
      ((BASISController.set_flow_rate fr line = .ok ()) ↔ |v - fr| ≤ 1 / 10) ∧
      ((BASISController.set_flow_rate fr line = .error .setpointRejected) ↔
        |v - fr| > 1 / 10)) ∧
    (∀ t, line ≠ "" → (pyTokens line)[4]? = some t →
      parseFloatChars t.data = none →
      BASISController.set_flow_rate fr line = .error .valueError) := by
  refine ⟨?_, ?_, ?_, ?_⟩
  · intro h
    simp [BASISController.set_flow_rate, h]
  · intro hl hget
    simp [BASISController.set_flow_rate, hl, hget]
  · intro t v hl ht hv
    have hred : BASISController.set_flow_rate fr line =
        (if |v - fr| > 1 / 10 then .error .setpointRejected else .ok ()) := by
      simp [BASISController.set_flow_rate, hl, ht, hv]
    by_cases hgt : |v - fr| > 1 / 10
    · rw [hred, if_pos hgt]
      constructor
      · constructor
        · intro hcontra; exact absurd hcontra (by simp)
        · intro hle; exact absurd hgt (not_lt.mpr hle)
      · constructor
        · intro _; exact hgt
        · intro _; rfl
    · rw [hred, if_neg hgt]
      constructor
      · constructor
        · intro _; exact not_lt.mp hgt
        · intro _; rfl
      · constructor
        · intro hcontra; exact absurd hcontra (by simp)
        · intro hg; exact absurd hg hgt
  · intro t hl ht hnone
    simp [BASISController.set_flow_rate, hl, ht, hnone]

/-- Witness for the amended C4 at concrete replies. -/
theorem claimC4_witness :
    BASISController.set_flow_rate 5 "" = .error .setpointRejected ∧
    BASISController.set_flow_rate 5 "A 1 2 3" = .error .setpointRejected ∧
    BASISController.set_flow_rate 5 "A 1 2 3 abc" = .error .valueError :=
  ⟨(claimC4_thm 5 "").1 rfl,
   (claimC4_thm 5 "A 1 2 3").2.1 (by decide) (by decide),
   (claimC4_thm 5 "A 1 2 3 abc").2.2.2 "abc" (by decide) (by decide) (by decide)⟩

/-! ## Claim C6 -/

/-- C6: `set_gas` with a string name outside the gas table fails with
`UnsupportedGas` at the encoding stage — before any command line exists to be
written, for every possible reply — while an integer index is passed through
without validation into the command line. -/
theorem claimC6_thm (unit : Char) :
    (∀ name : String, name ∉ GASES →
      BASISMeter.set_gas_command unit (.inl name) = .error .unsupportedGas ∧
      ∀ reply : String,
        BASISMeter.set_gas unit (.inl name) reply = .error .unsupportedGas) ∧
    (∀ n : ℤ, BASISMeter.set_gas_command unit (.inr n) =
      .ok (⟨[unit]⟩ ++ "GS " ++ intToStr n)) := by
  refine ⟨?_, fun n => rfl⟩
  intro name hname
  have hcmd : BASISMeter.set_gas_command unit (.inl name) = .error .unsupportedGas := by
    simp [BASISMeter.set_gas_command, hname]
  refine ⟨hcmd, fun reply => ?_⟩
  unfold BASISMeter.set_gas
  rw [hcmd, exceptBind_error]

/-- Witness for C6 at a concrete unsupported name and a raw index. -/
theorem claimC6_witness :
    ("margarine" ∉ GASES) ∧
    BASISMeter.set_gas 'A' (.inl "margarine") "OK" = .error .unsupportedGas ∧
    BASISMeter.set_gas_command 'A' (.inr (-3)) =
      .ok (⟨['A']⟩ ++ "GS " ++ intToStr (-3)) :=
  ⟨by decide, ((claimC6_thm 'A').1 "margarine" (by decide)).2 "OK",
   (claimC6_thm 'A').2 (-3)⟩

/-! ## Claim C7 -/

/-- C7 counterexample: the Controller parse of a reply with 4 value tokens
against the 6-key schema silently truncates (`zip` with `strict=False`)
instead of failing with `FieldCountMismatch`. -/
theorem claimC7_counterexample :
    basisKeys.length = 6 ∧ pyTokens "A 9 8 7 6" = ["A", "9", "8", "7", "6"] ∧
    BASISController.get basisKeys "A" "A 9 8 7 6" =
      .ok ([("temperature", .num 9), ("mass_flow", .num 8), ("totalizer", .num 7),
            ("setpoint", .num 6), ("control_point", .str "mass flow")],
           basisKeys) := by decide

/-- C7 amended: an empty line fails with `ReadFailure` for both parsers; for
the Meter every post-adjustment count disagreement fails with
`FieldCountMismatch`; the Controller never raises `FieldCountMismatch` — its
`strict=False` zip silently truncates to the shorter side. -/
theorem claimC7_thm :
    (∀ (keys : List String) (unit : String),
      BASISMeter.get keys unit "" = .error .readFailure ∧
      BASISController.get keys unit "" = .error .readFailure) ∧
    (∀ (keys : List String) (unit line u : String) (vs vs' keys' : List String),
      line ≠ "" → pyTokens line = u :: vs → stripFlags vs = .ok vs' → u = unit →
      meterNarrow keys vs' = .ok keys' → keys'.length ≠ vs'.length →
      BASISMeter.get keys unit line = .error .fieldCountMismatch) ∧
    (∀ (keys : List String) (unit line : String),
      BASISController.get keys unit line ≠ .error .fieldCountMismatch) := by
  refine ⟨fun keys unit => ⟨rfl, rfl⟩, ?_, ?_⟩
  · intro keys unit line u vs vs' keys' hl ht hs hu hn hlen
    unfold BASISMeter.get
    rw [if_neg hl, ht]
    simp only [BASISMeter.go]
    rw [hs, exceptBind_ok, if_neg (show ¬u ≠ unit by simp [hu]), hn,
      exceptBind_ok, if_pos hlen]
  · intro keys unit line
    unfold BASISController.get
    by_cases hl : line = ""
    · simp [hl]
    · rw [if_neg hl]
      cases htoks : pyTokens line with
      | nil => simp [BASISController.go]
      | cons u vs =>
        simp only [BASISController.go]
        cases hs : stripFlags vs with
        | error e =>
          rw [exceptBind_error]
          have he := stripFlags_error vs e hs
          simp [he]
        | ok vs' =>
          rw [exceptBind_ok]
          by_cases hu : u ≠ unit
          · rw [if_pos hu]; simp
          · rw [if_neg hu]; simp

/-- Witness for the amended C7 at concrete replies. -/
theorem claimC7_witness :
    BASISMeter.get basisKeys "A" "" = .error .readFailure ∧
    BASISMeter.get (basisKeys.eraseIdx 3) "A" "A 1 2 3 4 5 6" =
      .error .fieldCountMismatch ∧
    BASISController.get basisKeys "B" "B 1 2 3" ≠ .error .fieldCountMismatch :=
  ⟨(claimC7_thm.1 basisKeys "A").1,
   claimC7_thm.2.1 (basisKeys.eraseIdx 3) "A" "A 1 2 3 4 5 6" "A"
     ["1", "2", "3", "4", "5", "6"] ["1", "2", "3", "4", "5", "6"]
     (basisKeys.eraseIdx 3) (by decide) (by decide) (by decide) rfl
     (by decide) (by decide),
   claimC7_thm.2.2 basisKeys "B" "B 1 2 3"⟩

/-! ## The mock client (src/alicat/mock.py)

`mock.py` imports `GASES`, `CONTROL_POINTS` and `MAX_RAMP_TIME_UNITS` from
`alicat/driver.py`, which is not under `src/`. -/

/-- Modelled from the spec: the gas table of the missing `alicat/driver.py`
(§3 GasTable: an ordered, fixed-size sequence of gas names); instantiated
with the gas names that appear in the repository. -/
def driverGASES : List String := GASES

/-- Modelled from the spec: the control-point table of the missing
`alicat/driver.py` (§3: control_point is mass-flow / pressure / hold; §4.1:
name ↔ numeric code).  The numeric codes are not fixed by the spec; none of
the verified claims depends on their values. -/
def CONTROL_POINTS : List (String × ℤ) := [("mass flow", 0), ("pressure", 1), ("hold", 2)]

/-- Modelled from the spec: the ramp-time-unit table of the missing
`alicat/driver.py` (§2: ramp-time-unit name ↔ code).  The codes are not fixed
by the spec; none of the verified claims depends on their values. -/
def MAX_RAMP_TIME_UNITS : List (String × ℤ) := [("ms", 0), ("s", 1), ("m", 2), ("h", 3)]

/-- Association-list lookup (Python dict `[]` on the tables). -/
def lookupTable : List (String × ℤ) → String → Option ℤ
  | [], _ => none
  | (k', v) :: t, k => if k' = k then some v else lookupTable t k

/-- `next(p for p, i in table.items() if code == i)`, as an `Option`. -/
def findKeyByVal (t : List (String × ℤ)) (v : ℤ) : Option String :=
  (t.find? fun p => p.2 = v).map Prod.fst

/-- Python list indexing with negative-index support, as an `Option`
(`none` models an `IndexError`). -/
def pyIndex (l : List String) (i : ℤ) : Option String :=
  if 0 ≤ i then l.get? i.toNat
  else if i.natAbs ≤ l.length then l.get? (l.length - i.natAbs) else none

/-- Python `s.split(sep)` for a single-character separator (keeps empty
pieces, unlike whitespace split). -/
def splitChar (sep : Char) : List Char → List (List Char)
  | [] => [[]]
  | c :: t =>
    match splitChar sep t with
    | [] => [[]]
    | w :: ws => if c = sep then [] :: w :: ws else (c :: w) :: ws

/-- Does `hay` start with `needle`? -/
def startsList (needle hay : List Char) : Bool :=
  match needle, hay with
  | [], _ => true
  | _ :: _, [] => false
  | a :: ns, b :: hs => decide (a = b) && startsList ns hs

/-- Python `needle in hay` substring containment. -/
def containsList (needle : List Char) : List Char → Bool
  | [] => startsList needle []
  | c :: t => startsList needle (c :: t) || containsList needle t

/-- Left-pad a string with a character to a given width. -/
def padLeft (c : Char) (n : Nat) (s : String) : String :=
  ⟨List.replicate (n - s.data.length) c ++ s.data⟩

/-- Modelled from the spec: Python `f"{q:.{nd}f}"` fixed-point rendering.
The spec fixes only the fixed-width decimal shape (§4.5); the rounding
convention (`round` here, round-half-even in CPython) is insignificant to
every verified claim. -/
def renderDec (nd : Nat) (q : ℚ) : String :=
  let c : ℤ := round (q * (10 : ℚ) ^ nd)
  let a := c.natAbs
  let scale := 10 ^ nd
  let body := natToStr (a / scale) ++ "." ++ padLeft '0' nd (natToStr (a % scale))
  if c < 0 then "-" ++ body else body

/-- Modelled from the spec: Python `f"{q:+07.2f}"` (sign-explicit,
zero-padded to 7 characters, 2 decimals). -/
def renderPlus72 (q : ℚ) : String :=
  (if round (q * 100) < 0 then "-" else "+") ++
    padLeft '0' 6 (natToStr ((round (q * 100)).natAbs / 100) ++ "." ++
      padLeft '0' 2 (natToStr ((round (q * 100)).natAbs % 100)))

/-- Modelled from the spec: Python `f"{q:07.2f}"` (zero-padded to 7
characters, 2 decimals, no forced sign). -/
def render072 (q : ℚ) : String :=
  let c : ℤ := round (q * 100)
  let a := c.natAbs
  let body := natToStr (a / 100) ++ "." ++ padLeft '0' 2 (natToStr (a % 100))
  if c < 0 then "-" ++ padLeft '0' 6 body else padLeft '0' 7 body

/-- The mutable state of `mock.Client` (mock.py lines 24-43).  `max_ramp` and
`max_ramp_time_unit` are `Option`s because `__init__` declares but never
assigns them (reading them before a set raises `AttributeError`). -/
structure MockState where
  unit : Char
  button_lock : Bool
  control_point : String
  setpoint : ℚ
  gas : String
  mass_flow : ℚ
  pressure : ℚ
  temperature : ℚ
  total_flow : ℚ
  volumetric_flow : ℚ
  ramp_up : Bool
  ramp_down : Bool
  ramp_zero : Bool
  ramp_power : Bool
  max_ramp : Option ℚ
  max_ramp_time_unit : Option String
  firmware : String
  deriving DecidableEq, Repr

/-- `Client._create_dataframe` (mock.py lines 48-59).  Fixed-width padding
spaces inside fields are insignificant to whitespace tokenization and are
modelled as single separators. -/
def Client.create_dataframe (st : MockState) : String :=
  joinTokens ([⟨[st.unit]⟩, renderPlus72 st.pressure, renderPlus72 st.temperature,
    renderPlus72 st.volumetric_flow, renderPlus72 st.mass_flow,
    render072 st.setpoint, st.gas] ++ if st.button_lock then ["LCK"] else [])

/-- `Client._create_ramp_response` (mock.py lines 60-67). -/
def Client.create_ramp_response (st : MockState) : String :=
  joinTokens [⟨[st.unit]⟩, if st.ramp_up then "1" else "0",
    if st.ramp_down then "1" else "0", if st.ramp_zero then "1" else "0",
    if st.ramp_power then "1" else "0"]

/-- `Client._create_max_ramp_response` (mock.py lines 69-75): reading an
unassigned `max_ramp` / `max_ramp_time_unit` raises `AttributeError`; a unit
not in the table raises `KeyError`. -/
def Client.create_max_ramp_response (st : MockState) : Except Err String :=
  match st.max_ramp, st.max_ramp_time_unit with
  | some mr, some tu =>
    match lookupTable MAX_RAMP_TIME_UNITS tu with
    | some code =>
      .ok (joinTokens [⟨[st.unit]⟩, renderDec 7 mr, "7", intToStr code, "SLPM/" ++ tu])
    | none => .error .keyError
  | _, _ => .error .attributeError

/-- The verb dispatch of `Client._handle_write` (mock.py lines 83-138),
applied after the unit byte has been stripped (`msg`) and adopted (`st.unit`
is already the addressed unit `u`). -/
def Client.dispatch (st : MockState) (u : Char) (msg : List Char) :
    Except Err (MockState × String) :=
  if msg = [] then .ok (st, Client.create_dataframe st)
    else if msg = "$$L".data then
      let st := { st with button_lock := true }
      .ok (st, Client.create_dataframe st)
    else if msg = "$$U".data then
      let st := { st with button_lock := false }
      .ok (st, Client.create_dataframe st)
    else if containsList "W122=".data msg then
      match parseIntChars (msg.drop 5) with
      | none => .error .valueError
      | some cp =>
        match findKeyByVal CONTROL_POINTS cp with
        | none => .error .stopIteration
        | some p =>
          .ok ({ st with control_point := p }, ⟨[u]⟩ ++ "   122 = " ++ intToStr cp)
    else if msg = "R122".data then
      match lookupTable CONTROL_POINTS st.control_point with
      | none => .error .keyError
      | some code => .ok (st, ⟨[u]⟩ ++ "   122 = " ++ intToStr code)
    else if msg = "LSRC".data then .ok (st, Client.create_ramp_response st)
    else if containsList "LSRC".data msg then
      let values := splitChar ' ' (msg.drop 5)
      match values[0]?, values[1]?, values[2]?, values[3]? with
      | some a, some b, some c2, some d =>
        let st := { st with
          ramp_up := decide (a = "1".data), ramp_down := decide (b = "1".data),
          ramp_zero := decide (c2 = "1".data), ramp_power := decide (d = "1".data) }
        .ok (st, Client.create_ramp_response st)
      | _, _, _, _ => .error .indexError
    else if msg = "SR".data then
      match Client.create_max_ramp_response st with
      | .ok r => .ok (st, r)
      | .error e => .error e
    else if containsList "SR".data msg then
      match (pyWords msg)[1]? with
      | none => .error .indexError
      | some v1 =>
        match parseFloatChars v1 with
        | none => .error .valueError
        | some mr =>
          match (pyWords msg)[2]? with
          | none => .error .indexError
          | some v2 =>
            match parseIntChars v2 with
            | none => .error .valueError
            | some code =>
              match findKeyByVal MAX_RAMP_TIME_UNITS code with
              | none => .error .stopIteration
              | some tu =>
                let st := { st with max_ramp := some mr, max_ramp_time_unit := some tu }
                match Client.create_max_ramp_response st with
                | .ok r => .ok (st, r)
                | .error e => .error e
    else if msg.head? = some 'S' then
      match parseFloatChars (msg.drop 1) with
      | none => .error .valueError
      | some v =>
        let st := { st with setpoint := v }
        .ok (st, Client.create_dataframe st)
    else if msg.take 6 = "$$W46=".data then
      let gasRaw : List Char := msg.drop 6
      let reply := ⟨[u]⟩ ++ "   046 = " ++ ⟨gasRaw⟩
      match parseIntChars gasRaw with
      | none => .ok ({ st with gas := ⟨gasRaw⟩ }, reply)
      | some i =>
        match pyIndex driverGASES i with
        | none => .error .indexError
        | some name => .ok ({ st with gas := name }, reply)
    else if msg = "$$R46".data then
      if st.gas ∈ driverGASES then
        .ok (st, ⟨[u]⟩ ++ "   046 = " ++
          natToStr ((listIndex st.gas driverGASES).land 511))
      else .error .valueError
    else if msg = "VE".data then .ok (st, st.firmware)
    else if msg = "$$PC".data then
      let st := { st with pressure := 0 }
      .ok (st, Client.create_dataframe st)
    else if msg = "$$V".data then
      let st := { st with volumetric_flow := 0 }
      .ok (st, Client.create_dataframe st)
    else .error .notImplemented

/-- `Client._handle_write` (mock.py lines 77-138): strip the line, adopt the
leading byte as the current unit, then dispatch on the verb, mutating the
state and producing the reply.  Unrecognized verbs raise
`NotImplementedError`. -/
def Client.handle_write (st : MockState) (data : String) :
    Except Err (MockState × String) :=
  match pyStrip data.data with
  | [] => .error .indexError
  | u :: msg => Client.dispatch { st with unit := u } u msg

/-- The initial state of `mock.Client.__init__` (mock.py lines 24-43), with
the `random()` draws fixed to representative values (no verified claim
depends on them). -/
def initMockState : MockState where
  unit := 'A'
  button_lock := false
  control_point := "mass flow"
  setpoint := 10
  gas := "N2"
  mass_flow := 10
  pressure := 25
  temperature := 20
  total_flow := 0
  volumetric_flow := 0
  ramp_up := false
  ramp_down := false
  ramp_zero := false
  ramp_power := false
  max_ramp := none
  max_ramp_time_unit := none
  firmware := "6v21.0-R22 Nov 30 2016,16:04:20"

/-! ## Mock reply-shape lemmas -/

/-- A reply built as `unit ++ literal ++ suffix` starts with the unit byte. -/
theorem strHead_unit (u : Char) (s t : String) :
    ((⟨[u]⟩ : String) ++ s ++ t).data.head? = some u := by
  simp [String.data_append]

/-- The dataframe reply starts with the unit byte. -/
theorem create_dataframe_head (st : MockState) :
    (Client.create_dataframe st).data.head? = some st.unit := by
  by_cases hb : st.button_lock <;>
    simp [Client.create_dataframe, joinTokens, joinWords, hb]

/-- The ramp-config reply starts with the unit byte. -/
theorem create_ramp_head (st : MockState) :
    (Client.create_ramp_response st).data.head? = some st.unit := by
  simp [Client.create_ramp_response, joinTokens, joinWords]

/-- The max-ramp reply starts with the unit byte. -/
theorem create_max_ramp_head (st : MockState) (r : String)
    (h : Client.create_max_ramp_response st = .ok r) :
    r.data.head? = some st.unit := by
  unfold Client.create_max_ramp_response at h
  cases hmr : st.max_ramp with
  | none => rw [hmr] at h; exact Except.noConfusion h
  | some mr =>
    rw [hmr] at h
    cases htu : st.max_ramp_time_unit with
    | none => rw [htu] at h; exact Except.noConfusion h
    | some tu =>
      rw [htu] at h
      dsimp only at h
      cases hlk : lookupTable MAX_RAMP_TIME_UNITS tu with
      | none => rw [hlk] at h; exact Except.noConfusion h
      | some code =>
        rw [hlk] at h
        dsimp only at h
        injection h with hr
        rw [← hr]
        simp [joinTokens, joinWords]

/-- Python list indexing only returns elements of the list. -/
theorem pyIndex_mem (l : List String) (i : ℤ) (x : String)
    (h : pyIndex l i = some x) : x ∈ l := by
  unfold pyIndex at h
  by_cases h0 : 0 ≤ i
  · rw [if_pos h0] at h; exact List.get?_mem h
  · rw [if_neg h0] at h
    by_cases hn : i.natAbs ≤ l.length
    · rw [if_pos hn] at h; exact List.get?_mem h
    · rw [if_neg hn] at h; exact Option.noConfusion h

/-- Inversion of a successfully handled mock command: the state adopts the
addressed unit, the gas field is preserved or drawn from the gas table except
for a register-46 write with a non-integer argument (stored verbatim), and
every reply except the firmware reply starts with the unit byte. -/
theorem dispatch_inv (st0 : MockState) (u : Char) (msg : List Char)
    (st' : MockState) (r : String) (hu : st0.unit = u)
    (h : Client.dispatch st0 u msg = .ok (st', r)) :
    st'.unit = u ∧
    (st'.gas = st0.gas ∨ st'.gas ∈ driverGASES ∨
      (msg.take 6 = "$$W46=".data ∧ parseIntChars (msg.drop 6) = none ∧
        st'.gas = ⟨msg.drop 6⟩)) ∧
    (msg ≠ "VE".data → r.data.head? = some u) ∧
    (msg = [] → r = Client.create_dataframe st') ∧
    (msg = "VE".data → r = st0.firmware) := by
  unfold Client.dispatch at h
  by_cases h1 : msg = []
  · rw [if_pos h1] at h
    injection h with hpair
    injection hpair with hst hr
    subst hst; subst hr
    refine ⟨hu, Or.inl rfl, ?_, fun _ => rfl, ?_⟩
    · intro _
      rw [create_dataframe_head, hu]
    · intro hve; rw [h1] at hve; exact absurd hve (by decide)
  rw [if_neg h1] at h
  by_cases h2 : msg = "$$L".data
  · rw [if_pos h2] at h
    injection h with hpair
    injection hpair with hst hr
    subst hst; subst hr
    refine ⟨hu, Or.inl rfl, ?_, fun hnil => absurd hnil h1, ?_⟩
    · intro _
      rw [create_dataframe_head]
      exact congrArg some hu
    · intro hve; rw [h2] at hve; exact absurd hve (by decide)
  rw [if_neg h2] at h
  by_cases h3 : msg = "$$U".data
  · rw [if_pos h3] at h
    injection h with hpair
    injection hpair with hst hr
    subst hst; subst hr
    refine ⟨hu, Or.inl rfl, ?_, fun hnil => absurd hnil h1, ?_⟩
    · intro _
      rw [create_dataframe_head]
      exact congrArg some hu
    · intro hve; rw [h3] at hve; exact absurd hve (by decide)
  rw [if_neg h3] at h
  by_cases h4 : containsList "W122=".data msg = true
  · rw [if_pos h4] at h
    cases hp : parseIntChars (msg.drop 5) with
    | none => rw [hp] at h; exact Except.noConfusion h
    | some cp =>
      rw [hp] at h
      dsimp only at h
      cases hfk : findKeyByVal CONTROL_POINTS cp with
      | none => rw [hfk] at h; exact Except.noConfusion h
      | some p =>
        rw [hfk] at h
        dsimp only at h
        injection h with hpair
        injection hpair with hst hr
        subst hst; subst hr
        refine ⟨hu, Or.inl rfl, ?_, fun hnil => absurd hnil h1, ?_⟩
        · intro _; exact strHead_unit u _ _
        · intro hve; rw [hve] at h4; exact absurd h4 (by decide)
  rw [if_neg h4] at h
  by_cases h5 : msg = "R122".data
  · rw [if_pos h5] at h
    cases hlk : lookupTable CONTROL_POINTS st0.control_point with
    | none => rw [hlk] at h; exact Except.noConfusion h
    | some code =>
      rw [hlk] at h
      dsimp only at h
      injection h with hpair
      injection hpair with hst hr
      subst hst; subst hr
      refine ⟨hu, Or.inl rfl, ?_, fun hnil => absurd hnil h1, ?_⟩
      · intro _; exact strHead_unit u _ _
      · intro hve; rw [h5] at hve; exact absurd hve (by decide)
  rw [if_neg h5] at h
  by_cases h6 : msg = "LSRC".data
  · rw [if_pos h6] at h
    injection h with hpair
    injection hpair with hst hr
    subst hst; subst hr
    refine ⟨hu, Or.inl rfl, ?_, fun hnil => absurd hnil h1, ?_⟩
    · intro _
      rw [create_ramp_head]
      exact congrArg some hu
    · intro hve; rw [h6] at hve; exact absurd hve (by decide)
  rw [if_neg h6] at h
  by_cases h7 : containsList "LSRC".data msg = true
  · rw [if_pos h7] at h
    dsimp only at h
    cases ha : (splitChar ' ' (msg.drop 5))[0]? with
    | none => rw [ha] at h; exact Except.noConfusion h
    | some a =>
      rw [ha] at h
      cases hb : (splitChar ' ' (msg.drop 5))[1]? with
      | none => rw [hb] at h; exact Except.noConfusion h
      | some b =>
        rw [hb] at h
        cases hc : (splitChar ' ' (msg.drop 5))[2]? with
        | none => rw [hc] at h; exact Except.noConfusion h
        | some c2 =>
          rw [hc] at h
          cases hd : (splitChar ' ' (msg.drop 5))[3]? with
          | none => rw [hd] at h; exact Except.noConfusion h
          | some d =>
            rw [hd] at h
            dsimp only at h
            injection h with hpair
            injection hpair with hst hr
            subst hst; subst hr
            refine ⟨hu, Or.inl rfl, ?_, fun hnil => absurd hnil h1, ?_⟩
            · intro _
              rw [create_ramp_head]
              exact congrArg some hu
            · intro hve; rw [hve] at h7; exact absurd h7 (by decide)
  rw [if_neg h7] at h
  by_cases h8 : msg = "SR".data
  · rw [if_pos h8] at h
    cases hmr : Client.create_max_ramp_response st0 with
    | error e => rw [hmr] at h; exact Except.noConfusion h
    | ok rr =>
      rw [hmr] at h
      dsimp only at h
      injection h with hpair
      injection hpair with hst hr
      subst hst; subst hr
      refine ⟨hu, Or.inl rfl, ?_, fun hnil => absurd hnil h1, ?_⟩
      · intro _
        rw [create_max_ramp_head st0 rr hmr]
        exact congrArg some hu
      · intro hve; rw [h8] at hve; exact absurd hve (by decide)
  rw [if_neg h8] at h
  by_cases h9 : containsList "SR".data msg = true
  · rw [if_pos h9] at h
    cases hv1 : (pyWords msg)[1]? with
    | none => rw [hv1] at h; exact Except.noConfusion h
    | some v1 =>
      rw [hv1] at h
      dsimp only at h
      cases hpf : parseFloatChars v1 with
      | none => rw [hpf] at h; exact Except.noConfusion h
      | some mr =>
        rw [hpf] at h
        dsimp only at h
        cases hv2 : (pyWords msg)[2]? with
        | none => rw [hv2] at h; exact Except.noConfusion h
        | some v2 =>
          rw [hv2] at h
          dsimp only at h
          cases hpi : parseIntChars v2 with
          | none => rw [hpi] at h; exact Except.noConfusion h
          | some code =>
            rw [hpi] at h
            dsimp only at h
            cases hfk : findKeyByVal MAX_RAMP_TIME_UNITS code with
            | none => rw [hfk] at h; exact Except.noConfusion h
            | some tu =>
              rw [hfk] at h
              dsimp only at h
              cases hcm : Client.create_max_ramp_response
                  { st0 with max_ramp := some mr, max_ramp_time_unit := some tu } with
              | error e => rw [hcm] at h; exact Except.noConfusion h
              | ok rr =>
                rw [hcm] at h
                dsimp only at h
                injection h with hpair
                injection hpair with hst hr
                subst hst; subst hr
                refine ⟨hu, Or.inl rfl, ?_, fun hnil => absurd hnil h1, ?_⟩
                · intro _
                  rw [create_max_ramp_head _ rr hcm]
                  exact congrArg some hu
                · intro hve; rw [hve] at h9; exact absurd h9 (by decide)
  rw [if_neg h9] at h
  by_cases h10 : msg.head? = some 'S'
  · rw [if_pos h10] at h
    cases hpf : parseFloatChars (msg.drop 1) with
    | none => rw [hpf] at h; exact Except.noConfusion h
    | some v =>
      rw [hpf] at h
      dsimp only at h
      injection h with hpair
      injection hpair with hst hr
      subst hst; subst hr
      refine ⟨hu, Or.inl rfl, ?_, fun hnil => absurd hnil h1, ?_⟩
      · intro _
        rw [create_dataframe_head]
        exact congrArg some hu
      · intro hve; rw [hve] at h10; exact absurd h10 (by decide)
  rw [if_neg h10] at h
  by_cases h11 : msg.take 6 = "$$W46=".data
  · rw [if_pos h11] at h
    dsimp only at h
    cases hpi : parseIntChars (msg.drop 6) with
    | none =>
      rw [hpi] at h
      dsimp only at h
      injection h with hpair
      injection hpair with hst hr
      subst hst; subst hr
      refine ⟨hu, Or.inr (Or.inr ⟨h11, rfl, rfl⟩), ?_,
        fun hnil => absurd hnil h1, ?_⟩
      · intro _; exact strHead_unit u _ _
      · intro hve; rw [hve] at h11; exact absurd h11 (by decide)
    | some i =>
      rw [hpi] at h
      dsimp only at h
      cases hix : pyIndex driverGASES i with
      | none => rw [hix] at h; exact Except.noConfusion h
      | some name =>
        rw [hix] at h
        dsimp only at h
        injection h with hpair
        injection hpair with hst hr
        subst hst; subst hr
        refine ⟨hu, Or.inr (Or.inl (pyIndex_mem driverGASES i name hix)), ?_,
          fun hnil => absurd hnil h1, ?_⟩
        · intro _; exact strHead_unit u _ _
        · intro hve; rw [hve] at h11; exact absurd h11 (by decide)
  rw [if_neg h11] at h
  by_cases h12 : msg = "$$R46".data
  · rw [if_pos h12] at h
    by_cases hmem : st0.gas ∈ driverGASES
    · rw [if_pos hmem] at h
      injection h with hpair
      injection hpair with hst hr
      subst hst; subst hr
      refine ⟨hu, Or.inl rfl, ?_, fun hnil => absurd hnil h1, ?_⟩
      · intro _; exact strHead_unit u _ _
      · intro hve; rw [h12] at hve; exact absurd hve (by decide)
    · rw [if_neg hmem] at h
      exact Except.noConfusion h
  rw [if_neg h12] at h
  by_cases h13 : msg = "VE".data
  · rw [if_pos h13] at h
    injection h with hpair
    injection hpair with hst hr
    subst hst; subst hr
    exact ⟨hu, Or.inl rfl, fun hne => absurd h13 hne,
      fun hnil => absurd hnil h1, fun _ => rfl⟩
  rw [if_neg h13] at h
  by_cases h14 : msg = "$$PC".data
  · rw [if_pos h14] at h
    injection h with hpair
    injection hpair with hst hr
    subst hst; subst hr
    refine ⟨hu, Or.inl rfl, ?_, fun hnil => absurd hnil h1, ?_⟩
    · intro _
      rw [create_dataframe_head]
      exact congrArg some hu
    · intro hve; rw [h14] at hve; exact absurd hve (by decide)
  rw [if_neg h14] at h
  by_cases h15 : msg = "$$V".data
  · rw [if_pos h15] at h
    injection h with hpair
    injection hpair with hst hr
    subst hst; subst hr
    refine ⟨hu, Or.inl rfl, ?_, fun hnil => absurd hnil h1, ?_⟩
    · intro _
      rw [create_dataframe_head]
      exact congrArg some hu
    · intro hve; rw [h15] at hve; exact absurd hve (by decide)
  rw [if_neg h15] at h
  exact Except.noConfusion h

/-- Inversion of `Client.handle_write`: the wrapper of `dispatch_inv`. -/
theorem handle_write_inv (st : MockState) (data : String) (st' : MockState)
    (r : String) (h : Client.handle_write st data = .ok (st', r)) :
    ∃ u msg, pyStrip data.data = u :: msg ∧ st'.unit = u ∧
      (st'.gas = st.gas ∨ st'.gas ∈ driverGASES ∨
        (msg.take 6 = "$$W46=".data ∧ parseIntChars (msg.drop 6) = none ∧
          st'.gas = ⟨msg.drop 6⟩)) ∧
      (msg ≠ "VE".data → r.data.head? = some u) ∧
      (msg = [] → r = Client.create_dataframe st') ∧
      (msg = "VE".data → r = st.firmware) := by
  unfold Client.handle_write at h
  cases hps : pyStrip data.data with
  | nil => rw [hps] at h; exact Except.noConfusion h
  | cons u msg =>
    rw [hps] at h
    dsimp only at h
    exact ⟨u, msg, rfl, dispatch_inv { st with unit := u } u msg st' r rfl h⟩

/-- A non-whitespace lead character followed by a space is the first token. -/
theorem pyWords_head_tok (c : Char) (rest : List Char)
    (hc : c.isWhitespace = false) :
    pyWords (c :: ' ' :: rest) = [c] :: pyWords rest := by
  have hsp : (' ' : Char).isWhitespace = true := by decide
  simp [pyWords, pyWordsAux, hc, hsp]

/-- The only error `meterNarrow` produces is the `ValueError` of
`list.remove`. -/
theorem meterNarrow_error (keys vs : List String) (e : Err)
    (h : meterNarrow keys vs = .error e) : e = .valueError := by
  unfold meterNarrow at h
  by_cases hc : vs.length = 5 ∧ keys.length = 6
  · rw [if_pos hc] at h
    by_cases hm : "setpoint" ∈ keys
    · rw [if_pos hm] at h; exact Except.noConfusion h
    · rw [if_neg hm] at h; injection h with h'; exact h'.symm
  · rw [if_neg hc] at h; exact Except.noConfusion h

/-- When the reported unit token equals the addressed unit, the meter parse
can never fail with `UnitMismatch`. -/
theorem meterGo_first_match (keys : List String) (unit : String)
    (vs : List String) :
    BASISMeter.go keys unit (unit :: vs) ≠ .error .unitMismatch := by
  simp only [BASISMeter.go]
  cases hs : stripFlags vs with
  | error e =>
    rw [exceptBind_error]
    have he := stripFlags_error vs e hs
    simp [he]
  | ok vs' =>
    rw [exceptBind_ok, if_neg (by simp)]
    cases hn : meterNarrow keys vs' with
    | error e =>
      rw [exceptBind_error]
      have he := meterNarrow_error keys vs' e hn
      simp [he]
    | ok k2 =>
      rw [exceptBind_ok]
      by_cases hlen : k2.length ≠ vs'.length
      · rw [if_pos hlen]; simp
      · rw [if_neg hlen]; simp

/-- The character-level shape of the dataframe reply. -/
theorem create_dataframe_data (st : MockState) :
    (Client.create_dataframe st).data =
      st.unit :: ' ' :: (joinTokens (renderPlus72 st.pressure ::
        renderPlus72 st.temperature :: renderPlus72 st.volumetric_flow ::
        renderPlus72 st.mass_flow :: render072 st.setpoint :: st.gas ::
        (if st.button_lock then ["LCK"] else []))).data := rfl

/-- The dataframe reply's first token is the unit byte. -/
theorem create_dataframe_tokens_head (st : MockState)
    (h : st.unit.isWhitespace = false) :
    ∃ rest, pyTokens (Client.create_dataframe st) = ⟨[st.unit]⟩ :: rest := by
  refine ⟨(pyWords (joinTokens (renderPlus72 st.pressure ::
      renderPlus72 st.temperature :: renderPlus72 st.volumetric_flow ::
      renderPlus72 st.mass_flow :: render072 st.setpoint :: st.gas ::
      (if st.button_lock then ["LCK"] else []))).data).map
      (fun w => (⟨w⟩ : String)), ?_⟩
  unfold pyTokens
  rw [create_dataframe_data, pyWords_head_tok st.unit _ h]
  rfl

/-! ## Claim C8 -/

/-- C8 counterexample: a register-46 write with an arbitrary non-numeric
argument stores the raw string as the gas, breaking the "gas is always a
member of the fixed gas table" invariant. -/
theorem claimC8_counterexample :
    Client.handle_write initMockState "A$$W46=foo" =
      .ok ({ initMockState with gas := "foo" }, "A   046 = foo") ∧
    ({ initMockState with gas := "foo" } : MockState).gas = "foo" ∧
    "foo" ∉ driverGASES ∧ initMockState.gas ∈ driverGASES := by decide

/-- C8 amended: after every successfully handled command the simulated gas is
still a member of the gas table, except for a register-46 write whose
argument does not parse as an integer — that stores the raw argument string
verbatim, so the invariant breaks exactly when the argument is not a gas
name. -/
theorem claimC8_thm (st : MockState) (data : String) (st' : MockState)
    (r : String) (h : Client.handle_write st data = .ok (st', r))
    (hg : st.gas ∈ driverGASES) :
    st'.gas ∈ driverGASES ∨
    (∃ raw : List Char, (pyStrip data.data).drop 1 = "$$W46=".data ++ raw ∧
      parseIntChars raw = none ∧ st'.gas = ⟨raw⟩) := by
  obtain ⟨u, msg, hps, _, hgas, _, _, _⟩ := handle_write_inv st data st' r h
  rcases hgas with h1 | h1 | ⟨ht, hp, he⟩
  · rw [h1]; exact Or.inl hg
  · exact Or.inl h1
  · refine Or.inr ⟨msg.drop 6, ?_, hp, he⟩
    rw [hps]
    calc (u :: msg).drop 1 = msg := rfl
      _ = msg.take 6 ++ msg.drop 6 := (List.take_append_drop 6 msg).symm
      _ = "$$W46=".data ++ msg.drop 6 := by rw [ht]

/-- Witness for the amended C8 at the concrete register-46 write. -/
theorem claimC8_witness :
    initMockState.gas ∈ driverGASES ∧
    (({ initMockState with gas := "foo" } : MockState).gas ∈ driverGASES ∨
      (∃ raw : List Char,
        (pyStrip ("A$$W46=foo" : String).data).drop 1 = "$$W46=".data ++ raw ∧
        parseIntChars raw = none ∧
        ({ initMockState with gas := "foo" } : MockState).gas = ⟨raw⟩)) :=
  ⟨by decide,
   claimC8_thm initMockState "A$$W46=foo"
     { initMockState with gas := "foo" } "A   046 = foo"
     (by decide) (by decide)⟩

/-! ## Claim C10 -/

/-- C10 counterexample: the firmware read `VE` is a handled command whose
reply is not prefixed with the adopted unit byte. -/
theorem claimC10_counterexample :
    Client.handle_write initMockState "AVE" =
      .ok ({ initMockState with unit := 'A' },
           "6v21.0-R22 Nov 30 2016,16:04:20") ∧
    ("6v21.0-R22 Nov 30 2016,16:04:20" : String).data.head? ≠ some 'A' := by
  decide

/-- C10 amended: every successfully handled command makes the simulator adopt
the leading byte of the stripped line as its unit; every reply except the
firmware (`VE`) reply starts with that byte; and for the bare read the
dataframe reply can never trigger the parser's `UnitMismatch` branch when the
driver addresses that same unit. -/
theorem claimC10_thm (st : MockState) (data : String) (st' : MockState)
    (r : String) (h : Client.handle_write st data = .ok (st', r)) :
    ∃ u msg, pyStrip data.data = u :: msg ∧
      st'.unit = u ∧
      (msg ≠ "VE".data → r.data.head? = some u) ∧
      (msg = "VE".data → r = st.firmware) ∧
      (msg = [] → ∀ keys : List String,
        BASISMeter.get keys ⟨[u]⟩ r ≠ .error .unitMismatch) := by
  obtain ⟨u, msg, hps, hunit, _, hhead, hdf, hve⟩ := handle_write_inv st data st' r h
  refine ⟨u, msg, hps, hunit, hhead, hve, ?_⟩
  intro hnil keys
  rw [hdf hnil]
  have huws : u.isWhitespace = false := pyStrip_head data.data u msg hps
  obtain ⟨rest, htoks⟩ := create_dataframe_tokens_head st' (by rw [hunit]; exact huws)
  rw [hunit] at htoks
  unfold BASISMeter.get
  by_cases hempty : Client.create_dataframe st' = ""
  · rw [if_pos hempty]; simp
  · rw [if_neg hempty, htoks]
    exact meterGo_first_match keys ⟨[u]⟩ rest

/-- Witness for the amended C10 at the concrete firmware read. -/
theorem claimC10_witness :
    ∃ u msg, pyStrip ("AVE" : String).data = u :: msg ∧
      ({ initMockState with unit := 'A' } : MockState).unit = u ∧
      (msg ≠ "VE".data →
        ("6v21.0-R22 Nov 30 2016,16:04:20" : String).data.head? = some u) ∧
      (msg = "VE".data →
        "6v21.0-R22 Nov 30 2016,16:04:20" = initMockState.firmware) ∧
      (msg = [] → ∀ keys : List String,
        BASISMeter.get keys ⟨[u]⟩ "6v21.0-R22 Nov 30 2016,16:04:20" ≠
          .error .unitMismatch) :=
  claimC10_thm initMockState "AVE" { initMockState with unit := 'A' }
    "6v21.0-R22 Nov 30 2016,16:04:20" (by decide)

/-! ## Character-class lemmas for the rendered tokens -/

/-- Decimal digit characters are not whitespace. -/
theorem natDigitsRev_nonWS :
    ∀ fuel n, ∀ c ∈ natDigitsRev fuel n, c.isWhitespace = false := by
  intro fuel
  induction fuel with
  | zero => intro n c hc; simp [natDigitsRev] at hc
  | succ f ih =>
    intro n c hc
    by_cases hn : n = 0
    · rw [hn] at hc; simp [natDigitsRev] at hc
    · obtain ⟨m, rfl⟩ : ∃ m, n = m + 1 := ⟨n - 1, by omega⟩
      simp only [natDigitsRev, List.mem_cons] at hc
      rcases hc with rfl | hc
      · have hlt : (m + 1) % 10 < 10 := Nat.mod_lt _ (by norm_num)
        set d := (m + 1) % 10 with hd
        interval_cases d <;> decide
      · exact ih ((m + 1) / 10) c hc

/-- The rendering of a natural number is nonempty and whitespace-free. -/
theorem natToStr_shape (n : Nat) :
    (natToStr n).data ≠ [] ∧ ∀ c ∈ (natToStr n).data, c.isWhitespace = false := by
  unfold natToStr
  by_cases hn : n = 0
  · rw [if_pos hn]; exact ⟨by decide, by decide⟩
  · rw [if_neg hn]
    constructor
    · obtain ⟨m, rfl⟩ : ∃ m, n = m + 1 := ⟨n - 1, by omega⟩
      simp [natDigitsRev]
    · intro c hc
      have hmem : c ∈ natDigitsRev (n + 1) n := by
        simpa using hc
      exact natDigitsRev_nonWS (n + 1) n c hmem

/-- Zero-padding preserves whitespace-freeness. -/
theorem padLeft_nonWS (k : Nat) (s : String)
    (hs : ∀ c ∈ s.data, c.isWhitespace = false) :
    ∀ c ∈ (padLeft '0' k s).data, c.isWhitespace = false := by
  intro c hc
  unfold padLeft at hc
  have hc' : c ∈ List.replicate (k - s.data.length) '0' ++ s.data := hc
  rcases List.mem_append.mp hc' with h | h
  · rw [List.eq_of_mem_replicate h]; decide
  · exact hs c h

/-- Appending two whitespace-free strings is whitespace-free. -/
theorem strAppend_nonWS (s t : String)
    (hs : ∀ c ∈ s.data, c.isWhitespace = false)
    (ht : ∀ c ∈ t.data, c.isWhitespace = false) :
    ∀ c ∈ (s ++ t).data, c.isWhitespace = false := by
  intro c hc
  rw [String.data_append] at hc
  rcases List.mem_append.mp hc with h | h
  exacts [hs c h, ht c h]

/-- The fixed-width `+07.2f` rendering is a nonempty, whitespace-free
token. -/
theorem renderPlus72_shape (q : ℚ) :
    (renderPlus72 q).data ≠ [] ∧
    ∀ c ∈ (renderPlus72 q).data, c.isWhitespace = false := by
  constructor
  · by_cases hneg : round (q * 100) < 0 <;>
      simp [renderPlus72, hneg, String.data_append]
  · have hinner : ∀ c ∈ ((natToStr ((round (q * 100)).natAbs / 100) ++ "." ++
        padLeft '0' 2 (natToStr ((round (q * 100)).natAbs % 100)))).data,
        c.isWhitespace = false :=
      strAppend_nonWS _ _
        (strAppend_nonWS _ _ (natToStr_shape _).2 (by decide))
        (padLeft_nonWS 2 _ (natToStr_shape _).2)
    have hsign : ∀ c ∈ ((if round (q * 100) < 0 then "-" else "+") : String).data,
        c.isWhitespace = false := by
      by_cases hneg : round (q * 100) < 0
      · rw [if_pos hneg]; decide
      · rw [if_neg hneg]; decide
    exact strAppend_nonWS _ _ hsign (padLeft_nonWS 6 _ hinner)

/-- Every gas name in the table is a nonempty, whitespace-free token. -/
theorem gases_shape : ∀ g ∈ GASES, g.data ≠ [] ∧
    ∀ c ∈ g.data, c.isWhitespace = false := by decide

/-- No gas name is an over-range flag. -/
theorem gases_not_flag : ∀ g ∈ GASES, isFlag g = false := by decide

/-- Tokenizing a space-joined token list recovers the tokens. -/
theorem pyTokens_joinTokens (ts : List String)
    (h : ∀ t ∈ ts, t.data ≠ [] ∧ ∀ c ∈ t.data, c.isWhitespace = false) :
    pyTokens (joinTokens ts) = ts := by
  unfold pyTokens joinTokens
  rw [show ((⟨joinWords (ts.map fun t => t.data)⟩ : String)).data =
    joinWords (ts.map fun t => t.data) from rfl]
  rw [pyWords_joinWords (ts.map fun t => t.data)
    (by
      intro w hw
      obtain ⟨t, ht, rfl⟩ := List.mem_map.mp hw
      exact h t ht)]
  have : ∀ l : List String, (l.map fun t => t.data).map
      (fun w => (⟨w⟩ : String)) = l := by
    intro l
    induction l with
    | nil => rfl
    | cons a t ih => simp [ih]
  exact this ts

/-! ## The BASIS device simulator (spec-modelled)

The tests drive `BASISMeter`/`BASISController` against `BASISClient`
(tests/conftest.py patches `alicat.basis.SerialClient` with it), but
`BASISClient` is not under `src/`; the `Client` in `src/alicat/mock.py`
simulates the other (non-BASIS) driver's protocol and does not handle the
BASIS tare verb at all. -/

/-- The last element of the right part of an append. -/
theorem getLast?_append_right (l1 l2 : List Char) (h : l2 ≠ []) :
    (l1 ++ l2).getLast? = l2.getLast? := by
  rw [← List.head?_reverse, ← List.head?_reverse, List.reverse_append]
  cases hrev : l2.reverse with
  | nil => exact absurd (by simpa using hrev) h
  | cons a t => simp

/-- Modelled from the spec: the device state held by the BASIS simulator
(§3 DeviceState, restricted to the fields of the BASIS meter schema). -/
structure BASISSimState where
  unit : Char
  temperature : ℚ
  mass_flow : ℚ
  totalizer : ℚ
  setpoint : ℚ
  valve_drive : ℚ
  gas : String
  deriving DecidableEq, Repr

/-- Modelled from the spec: the BASIS simulator's dataframe reply (§4.5:
"always produces a reply formatted with fixed-width, sign-explicit decimal
fields"), with the field order of the BASIS meter schema (basis.py
`self.keys`). -/
def BASISClient.create_dataframe (st : BASISSimState) : String :=
  joinTokens [⟨[st.unit]⟩, renderPlus72 st.temperature, renderPlus72 st.mass_flow,
    renderPlus72 st.totalizer, renderPlus72 st.setpoint,
    renderPlus72 st.valve_drive, st.gas]

/-- Modelled from the spec: `BASISClient._handle_write` for the two commands
claim C2 exercises — the simulator adopts the leading unit byte (§4.5),
answers the bare read with the dataframe, and handles the tare verb
`V <duration>` by zeroing the mass-flow reading (§4.5 "reset specific fields
to zero"; §8 "`tare()` followed by `get_state()` yields
`mass_flow == 0.0`").  All other verbs raise the simulator's
`NotImplementedError`. -/
def BASISClient.handle_write (st : BASISSimState) (data : String) :
    Except Err (BASISSimState × String) :=
  match pyStrip data.data with
  | [] => .error .indexError
  | u :: msg =>
    let st := { st with unit := u }
    if msg = [] then .ok (st, BASISClient.create_dataframe st)
    else
      match msg with
      | 'V' :: ' ' :: _ =>
        let st := { st with mass_flow := 0 }
        .ok (st, BASISClient.create_dataframe st)
      | _ => .error .notImplemented

/-- The character-level shape of the BASIS dataframe reply. -/
theorem basis_dataframe_data (st : BASISSimState) :
    (BASISClient.create_dataframe st).data =
      st.unit :: ' ' :: (joinTokens [renderPlus72 st.temperature,
        renderPlus72 st.mass_flow, renderPlus72 st.totalizer,
        renderPlus72 st.setpoint, renderPlus72 st.valve_drive,
        st.gas]).data := by
  rfl

/-! ## Claim C2 -/

/-- C2: against the (spec-modelled) BASIS simulator, `tare()` followed by
`get_state()` yields a state record whose `mass_flow` field equals `0.0`,
for every device state. -/
theorem claimC2_thm (st : BASISSimState) (u : Char) (dur : Nat)
    (hu : u.isWhitespace = false) (hg : st.gas ∈ GASES) :
    ∃ st1 r1 st2 rec,
      BASISClient.handle_write st (BASISMeter.tareCmd u dur) = .ok (st1, r1) ∧
      BASISMeter.tare r1 = .ok () ∧ st1.mass_flow = 0 ∧
      BASISClient.handle_write st1 (BASISMeter.readCmd u) =
        .ok (st2, BASISClient.create_dataframe st2) ∧
      st2.mass_flow = 0 ∧
      BASISMeter.get basisKeys ⟨[u]⟩ (BASISClient.create_dataframe st2) =
        .ok (rec, basisKeys) ∧
      pylookup rec "mass_flow" = some (.num 0) := by
  have hndshape := natToStr_shape dur
  have hcmd : (BASISMeter.tareCmd u dur).data =
      u :: 'V' :: ' ' :: (natToStr dur).data := rfl
  have hstrip1 : pyStrip (BASISMeter.tareCmd u dur).data =
      u :: 'V' :: ' ' :: (natToStr dur).data := by
    rw [hcmd]
    apply pyStrip_eq_self
    · intro c hc
      simp only [List.head?_cons, Option.some.injEq] at hc
      rw [← hc]; exact hu
    · intro c hc
      rw [show u :: 'V' :: ' ' :: (natToStr dur).data =
        [u, 'V', ' '] ++ (natToStr dur).data from rfl,
        getLast?_append_right _ _ hndshape.1] at hc
      have hmem : c ∈ (natToStr dur).data := by
        rw [← List.head?_reverse] at hc
        cases hrev : (natToStr dur).data.reverse with
        | nil => rw [hrev] at hc; exact absurd hc (by simp)
        | cons a t =>
          rw [hrev] at hc
          simp only [List.head?_cons, Option.some.injEq] at hc
          rw [← List.mem_reverse, hrev, ← hc]
          exact List.mem_cons_self a t
      exact hndshape.2 c hmem
  have h1 : BASISClient.handle_write st (BASISMeter.tareCmd u dur) =
      .ok ({ st with unit := u, mass_flow := 0 },
        BASISClient.create_dataframe { st with unit := u, mass_flow := 0 }) := by
    unfold BASISClient.handle_write
    rw [hstrip1]
    rfl
  have hne1 : BASISClient.create_dataframe { st with unit := u, mass_flow := 0 } ≠ "?" := by
    intro hcon
    have hdat := congrArg String.data hcon
    rw [basis_dataframe_data] at hdat
    simp at hdat
  have htare : BASISMeter.tare
      (BASISClient.create_dataframe { st with unit := u, mass_flow := 0 }) = .ok () := by
    unfold BASISMeter.tare
    rw [if_neg hne1]
  have hstrip2 : pyStrip (BASISMeter.readCmd u).data = [u] := by
    show pyStrip [u] = [u]
    apply pyStrip_eq_self
    · intro c hc
      simp only [List.head?_cons, Option.some.injEq] at hc
      rw [← hc]; exact hu
    · intro c hc
      have hcu : u = c := by simpa using hc
      rw [← hcu]; exact hu
  have h2 : BASISClient.handle_write { st with unit := u, mass_flow := 0 }
      (BASISMeter.readCmd u) =
      .ok ({ st with unit := u, mass_flow := 0 },
        BASISClient.create_dataframe { st with unit := u, mass_flow := 0 }) := by
    unfold BASISClient.handle_write
    rw [hstrip2]
    rfl
  have htoks : pyTokens
      (BASISClient.create_dataframe { st with unit := u, mass_flow := 0 }) =
      [⟨[u]⟩, renderPlus72 st.temperature, renderPlus72 0,
       renderPlus72 st.totalizer, renderPlus72 st.setpoint,
       renderPlus72 st.valve_drive, st.gas] := by
    apply pyTokens_joinTokens
    intro t ht
    simp only [List.mem_cons, List.not_mem_nil, or_false] at ht
    rcases ht with rfl | rfl | rfl | rfl | rfl | rfl | rfl
    · refine ⟨by simp, ?_⟩
      intro c hc
      simp only [show ((⟨[u]⟩ : String)).data = [u] from rfl,
        List.mem_singleton] at hc
      rw [hc]; exact hu
    · exact renderPlus72_shape _
    · exact renderPlus72_shape _
    · exact renderPlus72_shape _
    · exact renderPlus72_shape _
    · exact renderPlus72_shape _
    · exact gases_shape st.gas hg
  have hne2 : BASISClient.create_dataframe { st with unit := u, mass_flow := 0 } ≠ "" := by
    intro hcon
    have hdat := congrArg String.data hcon
    rw [basis_dataframe_data] at hdat
    simp at hdat
  have hstripv : stripFlags [renderPlus72 st.temperature, renderPlus72 0,
      renderPlus72 st.totalizer, renderPlus72 st.setpoint,
      renderPlus72 st.valve_drive, st.gas] =
      .ok [renderPlus72 st.temperature, renderPlus72 0,
        renderPlus72 st.totalizer, renderPlus72 st.setpoint,
        renderPlus72 st.valve_drive, st.gas] :=
    stripFlags_last_not_flag _ st.gas rfl (gases_not_flag st.gas hg)
  have hparse : BASISMeter.get basisKeys ⟨[u]⟩
      (BASISClient.create_dataframe { st with unit := u, mass_flow := 0 }) =
      .ok (pydict (basisKeys.zip
        ([renderPlus72 st.temperature, renderPlus72 0,
          renderPlus72 st.totalizer, renderPlus72 st.setpoint,
          renderPlus72 st.valve_drive, st.gas].map coerceTok)), basisKeys) := by
    unfold BASISMeter.get
    rw [if_neg hne2, htoks]
    simp only [BASISMeter.go]
    rw [hstripv, exceptBind_ok, if_neg (by simp),
      show meterNarrow basisKeys [renderPlus72 st.temperature, renderPlus72 0,
        renderPlus72 st.totalizer, renderPlus72 st.setpoint,
        renderPlus72 st.valve_drive, st.gas] = .ok basisKeys from by
        unfold meterNarrow; rw [if_neg (by simp)],
      exceptBind_ok, if_neg (by simp [basisKeys])]
  have hlook : pylookup (pydict (basisKeys.zip
      ([renderPlus72 st.temperature, renderPlus72 0,
        renderPlus72 st.totalizer, renderPlus72 st.setpoint,
        renderPlus72 st.valve_drive, st.gas].map coerceTok))) "mass_flow" =
      some (coerceTok (renderPlus72 0)) := by
    simp [basisKeys, pydict, pydictInsert, pylookup]
  have hval : coerceTok (renderPlus72 (0 : ℚ)) = .num 0 := by
    have h72 : renderPlus72 0 = "+000.00" := by
      have h0 : round ((0 : ℚ) * 100) = (0 : ℤ) := by norm_num
      simp [renderPlus72, h0]
      decide
    rw [h72]
    unfold coerceTok
    rw [show parseFloatChars "+000.00".data =
      some ((natOfDigits [0, 0, 0] : ℚ) +
        (natOfDigits [0, 0] : ℚ) / (10 : ℚ) ^ (2 : ℕ)) from rfl]
    have hzero : ((natOfDigits [0, 0, 0] : ℚ) +
        (natOfDigits [0, 0] : ℚ) / (10 : ℚ) ^ (2 : ℕ)) = 0 := by
      norm_num [natOfDigits]
    rw [hzero]
  exact ⟨{ st with unit := u, mass_flow := 0 },
    BASISClient.create_dataframe { st with unit := u, mass_flow := 0 },
    { st with unit := u, mass_flow := 0 },
    pydict (basisKeys.zip
      ([renderPlus72 st.temperature, renderPlus72 0,
        renderPlus72 st.totalizer, renderPlus72 st.setpoint,
        renderPlus72 st.valve_drive, st.gas].map coerceTok)),
    h1, htare, rfl, h2, rfl, hparse, by rw [hlook, hval]⟩

/-- Witness for C2 at a concrete device state and unit. -/
theorem claimC2_witness :
    ('A' : Char).isWhitespace = false ∧
    (⟨'A', 20, 7, 3, 10, 55, "N2"⟩ : BASISSimState).gas ∈ GASES ∧
    (∃ st1 r1 st2 rec,
      BASISClient.handle_write (⟨'A', 20, 7, 3, 10, 55, "N2"⟩ : BASISSimState)
        (BASISMeter.tareCmd 'A' 10) = .ok (st1, r1) ∧
      BASISMeter.tare r1 = .ok () ∧ st1.mass_flow = 0 ∧
      BASISClient.handle_write st1 (BASISMeter.readCmd 'A') =
        .ok (st2, BASISClient.create_dataframe st2) ∧
      st2.mass_flow = 0 ∧
      BASISMeter.get basisKeys ⟨['A']⟩ (BASISClient.create_dataframe st2) =
        .ok (rec, basisKeys) ∧
      pylookup rec "mass_flow" = some (.num 0)) :=
  ⟨by decide, by decide,
   claimC2_thm ⟨'A', 20, 7, 3, 10, 55, "N2"⟩ 'A' 10 (by decide) (by decide)⟩
